import Mathlib

/-! The disk reporter of retrieve-disks.

A shallow embedding of `GetSerial` and `main` from
`src/src/ConsoleApplication1/ConsoleApplication1.cpp`.

The program only talks to the operating system, so the embedding takes the
answers of the operating system as data (`Attempt`, `Device`, `World`) and
returns what the program does with them: the sequence of `Event`s (system calls
issued and text sent to `cout`) and the value returned.

* A `DWORD`/`ULONG` is a `Nat`; the code never does arithmetic on one apart from
  `++deviceIndex` and `psz + psdd->SerialNumberOffset`.  Where the 32-bit range
  matters (the bound on the number of retries) it is a hypothesis on the
  descriptor returned by the system.  A device is named by its position in the
  enumeration, which stands for `deviceIndex` in enumerations of fewer than
  `2 ^ 32` interfaces.
* `GetSerial` has a `do ... while` loop that need not end, so it takes a `fuel`
  argument bounding the number of passes and returns `none` when it runs out.
-/

namespace RetrieveDisks

/-! ## Status codes (winerror.h) -/

/-- Modelled from the spec: the "zero/success sentinel"; `ERROR_SUCCESS` of winerror.h,
which is not part of the repository. -/
def ERROR_SUCCESS : Nat := 0

/-- Modelled from the spec: the success value returned by `GetSerial`; `NOERROR` of
winerror.h, which is not part of the repository. -/
def NOERROR : Nat := 0

/-- Modelled from the spec: the "generic failure" code; `ERROR_GEN_FAILURE` of winerror.h,
which is not part of the repository. -/
def ERROR_GEN_FAILURE : Nat := 31

/-- Modelled from the spec: the "insufficient buffer" code; `ERROR_INSUFFICIENT_BUFFER` of
winerror.h, which is not part of the repository. -/
def ERROR_INSUFFICIENT_BUFFER : Nat := 122

/-- Modelled from the spec: the code for "no serial number available"; `ERROR_NO_DATA` of
winerror.h, which is not part of the repository. -/
def ERROR_NO_DATA : Nat := 232

/-- Modelled from the spec: the "more data" code; `ERROR_MORE_DATA` of winerror.h, which is
not part of the repository. -/
def ERROR_MORE_DATA : Nat := 234

/-- Modelled from the spec: the "no more items" code; `ERROR_NO_MORE_ITEMS` of winerror.h,
which is not part of the repository. -/
def ERROR_NO_MORE_ITEMS : Nat := 259

/-- Modelled from the spec: the code `GetSerial` starts each pass with;
`ERROR_NO_SYSTEM_RESOURCES` of winerror.h, which is not part of the repository. -/
def ERROR_NO_SYSTEM_RESOURCES : Nat := 1450

/-! ## Observable behaviour -/

/-- What the program does that can be seen from outside: the system calls it issues, in
order, and the text it sends to `cout`.  `dev` is the position of a device in the
enumeration; the handle `CreateFile` returns for that device is identified with it. -/
inductive Event where
  /-- Text sent to `cout`. -/
  | out (text : String)
  /-- Call of `SetupDiGetClassDevs`; `ok` tells whether a valid device information set came back. -/
  | getClassDevs (ok : Bool)
  /-- Call of `SetupDiDestroyDeviceInfoList`. -/
  | destroyInfoList
  /-- Call of `SetupDiGetDeviceInterfaceDetail` for device `dev` with a buffer of `bufSize` bytes. -/
  | detailQuery (dev : Nat) (bufSize : Nat)
  /-- Call of `malloc(size)` for the detail record of device `dev`; `ok` is false for `NULL`. -/
  | malloc (dev : Nat) (size : Nat) (ok : Bool)
  /-- Call of `CreateFile` on the path of device `dev`; `ok` is false for `INVALID_HANDLE_VALUE`. -/
  | createFile (dev : Nat) (ok : Bool)
  /-- Call of `DeviceIoControl(IOCTL_STORAGE_GET_DEVICE_NUMBER)` on handle `h`. -/
  | getDeviceNumber (h : Nat)
  /-- Call of `LocalAlloc(0, size)` in `GetSerial(h)`; `ok` is false for `NULL`. -/
  | localAlloc (h : Nat) (size : Nat) (ok : Bool)
  /-- Call of `DeviceIoControl(IOCTL_STORAGE_QUERY_PROPERTY)` on `h`, buffer of `size` bytes. -/
  | queryProperty (h : Nat) (size : Nat)
  /-- Call of `LocalFree` on the buffer of `size` bytes allocated in `GetSerial(h)`. -/
  | localFree (h : Nat) (size : Nat)
  /-- Call of `CloseHandle` on handle `h`. -/
  | closeHandle (h : Nat)
  deriving DecidableEq, Repr

/-- The text on standard output: the `out` events concatenated. -/
def stdoutOf : List Event → String
  | [] => ""
  | Event.out text :: es => text ++ stdoutOf es
  | _ :: es => stdoutOf es

/-- The buffer sizes of the descriptor queries issued, in order. -/
def queriesOf : List Event → List Nat
  | [] => []
  | Event.queryProperty _ size :: es => size :: queriesOf es
  | _ :: es => queriesOf es

/-! ## GetSerial -/

/-- The buffer after a successful `IOCTL_STORAGE_QUERY_PROPERTY`, seen through the union of
`GetSerial`: the three fields of `psdd` the code reads, and the bytes seen through `psz`. -/
structure Descriptor where
  Version : Nat
  Size : Nat
  SerialNumberOffset : Nat
  bytes : List Char
  deriving DecidableEq, Repr

/-- What the system answers in one pass of the loop of `GetSerial`. -/
inductive Attempt where
  /-- The call of `LocalAlloc` returned `NULL`; no query is issued. -/
  | allocFailed
  /-- The call of `DeviceIoControl` returned `FALSE` and `GetLastError()` is `lastError`. -/
  | ioFailed (lastError : Nat)
  /-- The call of `DeviceIoControl` returned `TRUE` and left `psdd` in the buffer. -/
  | ioOk (psdd : Descriptor)
  deriving DecidableEq, Repr

/-- The terminator of a C string. -/
def NUL : Char := Char.ofNat 0

/-- The characters `cout << p` prints for a `char*` that points at `cs`: those before the
first `NUL`.  (When `cs` holds no `NUL` the C code reads past the buffer; the model stops at
its end.) -/
def cString (cs : List Char) : String :=
  String.mk (cs.takeWhile (fun c => c != NUL))

/-- One pass through the body of the `do ... while` of `GetSerial` (lines 51-91) with a buffer
of `size` bytes: the events, the new value of `size` and the value of `dwError`.
`sizeofSDD` is `sizeof(STORAGE_DEVICE_DESCRIPTOR)`, whose declaration (Ntddstor.h) is not in
the repository. -/
def GetSerialBody (sizeofSDD : Nat) (hFile : Nat) (size : Nat) :
    Attempt → List Event × Nat × Nat
  | Attempt.allocFailed =>
      ([Event.localAlloc hFile size false], size, ERROR_NO_SYSTEM_RESOURCES)
  | Attempt.ioFailed lastError =>
      ([Event.localAlloc hFile size true, Event.queryProperty hFile size,
        Event.localFree hFile size], size, lastError)
  | Attempt.ioOk psdd =>
      if psdd.Version ≥ sizeofSDD then
        if psdd.Size > size then
          ([Event.localAlloc hFile size true, Event.queryProperty hFile size,
            Event.localFree hFile size], psdd.Size, ERROR_MORE_DATA)
        else if psdd.SerialNumberOffset ≠ 0 then
          ([Event.localAlloc hFile size true, Event.queryProperty hFile size,
            Event.out ("SerialNumber = " ++ cString (psdd.bytes.drop psdd.SerialNumberOffset)
              ++ "\n"),
            Event.localFree hFile size], size, NOERROR)
        else
          ([Event.localAlloc hFile size true, Event.queryProperty hFile size,
            Event.localFree hFile size], size, ERROR_NO_DATA)
      else
        ([Event.localAlloc hFile size true, Event.queryProperty hFile size,
          Event.localFree hFile size], size, ERROR_GEN_FAILURE)

/-- The `do ... while (dwError == ERROR_MORE_DATA)` loop of `GetSerial`, entered for the
`n`-th time (from 0) with the current value of `size`.  `os n size` is the answer of the
system to the `n`-th pass when the buffer has `size` bytes.  Returns the events and the final
`dwError`, or `none` when `fuel` passes were not enough. -/
def GetSerialLoop (sizeofSDD : Nat) (os : Nat → Nat → Attempt) (hFile : Nat) :
    Nat → Nat → Nat → Option (List Event × Nat)
  | 0, _, _ => none
  | fuel + 1, n, size =>
      let r := GetSerialBody sizeofSDD hFile size (os n size)
      if r.2.2 = ERROR_MORE_DATA then
        (GetSerialLoop sizeofSDD os hFile fuel (n + 1) r.2.1).map
          (fun rest => (r.1 ++ rest.1, rest.2))
      else
        some (r.1, r.2.2)

/-- The function `GetSerial(hFile)` (lines 35-95): the loop entered with
`size = sizeof(STORAGE_DEVICE_DESCRIPTOR) + 0x100`. -/
def GetSerial (sizeofSDD : Nat) (os : Nat → Nat → Attempt) (hFile : Nat) (fuel : Nat) :
    Option (List Event × Nat) :=
  GetSerialLoop sizeofSDD os hFile fuel 0 (sizeofSDD + 0x100)

/-- The value of `size` with which the loop of `GetSerial` enters its `n`-th pass (from 0),
or `none` when the loop ends before that pass: the first pass has the initial size, and a
pass is followed by another one exactly when it ends with `dwError == ERROR_MORE_DATA`. -/
def passSize (sizeofSDD : Nat) (os : Nat → Nat → Attempt) : Nat → Option Nat
  | 0 => some (sizeofSDD + 0x100)
  | n + 1 =>
      match passSize sizeofSDD os n with
      | none => none
      | some size =>
          if (GetSerialBody sizeofSDD 0 size (os n size)).2.2 = ERROR_MORE_DATA then
            some (GetSerialBody sizeofSDD 0 size (os n size)).2.1
          else none

/-! ## main -/

/-- What the compiler fixes: `sizeof(STORAGE_DEVICE_DESCRIPTOR)` (Ntddstor.h is not in the
repository) and the value `__LINE__` takes inside the `CHK` invocation that starts at a given
source line (an invocation spans several lines). -/
structure Build where
  sizeofSDD : Nat
  line : Nat → Nat

/-- The result of a call that the code checks and, on failure, follows with
`GetLastError()`. -/
inductive Win32 (α : Type) where
  | ok (value : α)
  | failed (lastError : Nat)
  deriving DecidableEq, Repr

/-- What the system answers while one enumerated interface is processed (one pass of the
`while` of `main`, lines 137-197). -/
structure Device where
  /-- Value of `GetLastError()` after the zero-size `SetupDiGetDeviceInterfaceDetail` (line 139),
  whose `BOOL` result the code discards. -/
  detailSizeLastError : Nat
  /-- The value of `requiredSize` after that call. -/
  requiredSize : Nat
  /-- The outcome of `malloc(requiredSize)`, line 148. -/
  malloc : Win32 Unit
  /-- The outcome of the `SetupDiGetDeviceInterfaceDetail` checked at line 162 (the result of
  the same call at line 155 is stored in `hahaha` and never read). -/
  detailFetch : Win32 Unit
  /-- What `cout << deviceInterfaceDetailData->DevicePath` prints. -/
  DevicePath : String
  /-- The outcome of `CreateFile`, line 170. -/
  createFile : Win32 Unit
  /-- The outcome of `IOCTL_STORAGE_GET_DEVICE_NUMBER`, line 180: `diskNumber.DeviceNumber`. -/
  deviceNumber : Win32 Nat
  /-- The answers to the passes of `GetSerial(disk)`, line 190. -/
  serial : Nat → Nat → Attempt

/-- The system as `main` sees it: the outcome of `SetupDiGetClassDevs`, the interfaces for
which `SetupDiEnumDeviceInterfaces` returns `TRUE`, in order, and `GetLastError()` after the
call that returns `FALSE`. -/
structure World where
  classDevs : Win32 Unit
  devices : List Device
  enumLastError : Nat

/-- The variables at a `goto Error_Exit` of `CHK`; `disk` is `none` for
`INVALID_HANDLE_VALUE`. -/
structure Jump where
  error : Nat
  failedLine : Nat
  failedApi : String
  disk : Option Nat
  deriving DecidableEq, Repr

/-- The macro `CHK(expr, api)` (lines 19-25): `none` when `expr` holds, else the jump to
`Error_Exit` with `error = GetLastError()`. -/
def CHK (expr : Bool) (lastError : Nat) (line : Nat) (api : String) (disk : Option Nat) :
    Option Jump :=
  if expr then none else some ⟨lastError, line, api, disk⟩

/-- The three lines `main` prints for a device, lines 195-197. -/
def report (DevicePath : String) (DeviceNumber : Nat) : List Event :=
  [Event.out (DevicePath ++ "\n"),
   Event.out ("\\\\?\\PhysicalDrive" ++ toString DeviceNumber ++ "\n"),
   Event.out "\n"]

/-- The body of the `while` of `main` for the device at position `dev` (lines 137-197): the
events, and the jump to `Error_Exit` if a `CHK` fails.  `none`: `GetSerial` ran out of
`fuel`. -/
def deviceBody (b : Build) (fuel : Nat) (dev : Nat) (d : Device) :
    Option (List Event × Option Jump) :=
  match CHK (ERROR_INSUFFICIENT_BUFFER == d.detailSizeLastError) d.detailSizeLastError
      (b.line 145) "SetupDiGetDeviceInterfaceDetail - 1" none with
  | some j => some ([Event.detailQuery dev 0], some j)
  | none =>
  match d.malloc with
  | Win32.failed e =>
      some ([Event.detailQuery dev 0, Event.malloc dev d.requiredSize false],
        CHK false e (b.line 149) "malloc" none)
  | Win32.ok _ =>
  match d.detailFetch with
  | Win32.failed e =>
      some ([Event.detailQuery dev 0, Event.malloc dev d.requiredSize true,
        Event.detailQuery dev d.requiredSize, Event.detailQuery dev d.requiredSize],
        CHK false e (b.line 162) "SetupDiGetDeviceInterfaceDetail - 2" none)
  | Win32.ok _ =>
  match d.createFile with
  | Win32.failed e =>
      some ([Event.detailQuery dev 0, Event.malloc dev d.requiredSize true,
        Event.detailQuery dev d.requiredSize, Event.detailQuery dev d.requiredSize,
        Event.createFile dev false],
        CHK false e (b.line 177) "CreateFile" none)
  | Win32.ok _ =>
  match d.deviceNumber with
  | Win32.failed e =>
      some ([Event.detailQuery dev 0, Event.malloc dev d.requiredSize true,
        Event.detailQuery dev d.requiredSize, Event.detailQuery dev d.requiredSize,
        Event.createFile dev true, Event.getDeviceNumber dev],
        CHK false e (b.line 180) "IOCTL_STORAGE_GET_DEVICE_NUMBER" (some dev))
  | Win32.ok DeviceNumber =>
  match GetSerial b.sizeofSDD d.serial dev fuel with
  | none => none
  | some serial =>
      some ([Event.detailQuery dev 0, Event.malloc dev d.requiredSize true,
        Event.detailQuery dev d.requiredSize, Event.detailQuery dev d.requiredSize,
        Event.createFile dev true, Event.getDeviceNumber dev]
        ++ serial.1 ++ [Event.closeHandle dev] ++ report d.DevicePath DeviceNumber, none)

/-- The `while (SetupDiEnumDeviceInterfaces(...))` of `main` together with the `CHK` that
follows it (lines 131-200), from position `dev` on, `ds` being the interfaces still to come. -/
def deviceLoop (b : Build) (fuel : Nat) (enumLastError : Nat) :
    Nat → List Device → Option (List Event × Option Jump)
  | _, [] =>
      some ([], CHK (ERROR_NO_MORE_ITEMS == enumLastError) enumLastError (b.line 199)
        "SetupDiEnumDeviceInterfaces" none)
  | dev, d :: ds =>
      match deviceBody b fuel dev d with
      | none => none
      | some (evs, some j) => some (evs, some j)
      | some (evs, none) =>
          (deviceLoop b fuel enumLastError (dev + 1) ds).map
            (fun rest => (evs ++ rest.1, rest.2))

/-- The line `END_ERROR_CHK` prints when `error` is not `ERROR_SUCCESS` (line 31). -/
def diagnostic (j : Jump) : String :=
  j.failedApi ++ " failed at " ++ toString j.failedLine ++ " : Error Code - "
    ++ toString j.error ++ "\n"

/-- The macro `END_ERROR_CHK()` and the code after the label `Exit` (lines 202-214), reached
by falling out of the loop (`none`) or by a `goto Error_Exit`: the events and the value
returned.  `infoList` tells whether `diskClassDevices` is a valid handle. -/
def errorExit (infoList : Bool) : Option Jump → List Event × Nat
  | none =>
      ((if infoList then [Event.destroyInfoList] else []), ERROR_SUCCESS)
  | some j =>
      ((if ERROR_SUCCESS ≠ j.error then [Event.out (diagnostic j)] else [])
        ++ (if infoList then [Event.destroyInfoList] else [])
        ++ (match j.disk with
            | some h => [Event.closeHandle h]
            | none => []),
       j.error)

/-- A finished run of `main`: what it did and the value it returned. -/
structure Run where
  events : List Event
  ret : Nat
  deriving DecidableEq, Repr

/-- The function `main` (lines 97-215).  `none`: some `GetSerial` ran out of `fuel`. -/
def main (b : Build) (w : World) (fuel : Nat) : Option Run :=
  match w.classDevs with
  | Win32.failed e =>
      let x := errorExit false (CHK false e (b.line 124) "SetupDiGetClassDevs" none)
      some ⟨Event.getClassDevs false :: x.1, x.2⟩
  | Win32.ok _ =>
      match deviceLoop b fuel w.enumLastError 0 w.devices with
      | none => none
      | some (evs, j) =>
          let x := errorExit true j
          some ⟨Event.getClassDevs true :: evs ++ x.1, x.2⟩

/-! ## The copy of main without GetSerial

`src/ConsoleApplication1/ConsoleApplication1.cpp` holds the same `main` without the call of
`GetSerial` (and without the function); its loop body ends with `CloseHandle` and the three
lines. -/

namespace WithoutSerial

/-- The body of the `while` of `main` in the copy without `GetSerial` (lines 74-132). -/
def deviceBody (b : Build) (dev : Nat) (d : Device) : List Event × Option Jump :=
  match CHK (ERROR_INSUFFICIENT_BUFFER == d.detailSizeLastError) d.detailSizeLastError
      (b.line 82) "SetupDiGetDeviceInterfaceDetail - 1" none with
  | some j => ([Event.detailQuery dev 0], some j)
  | none =>
  match d.malloc with
  | Win32.failed e =>
      ([Event.detailQuery dev 0, Event.malloc dev d.requiredSize false],
        CHK false e (b.line 86) "malloc" none)
  | Win32.ok _ =>
  match d.detailFetch with
  | Win32.failed e =>
      ([Event.detailQuery dev 0, Event.malloc dev d.requiredSize true,
        Event.detailQuery dev d.requiredSize, Event.detailQuery dev d.requiredSize],
        CHK false e (b.line 99) "SetupDiGetDeviceInterfaceDetail - 2" none)
  | Win32.ok _ =>
  match d.createFile with
  | Win32.failed e =>
      ([Event.detailQuery dev 0, Event.malloc dev d.requiredSize true,
        Event.detailQuery dev d.requiredSize, Event.detailQuery dev d.requiredSize,
        Event.createFile dev false],
        CHK false e (b.line 114) "CreateFile" none)
  | Win32.ok _ =>
  match d.deviceNumber with
  | Win32.failed e =>
      ([Event.detailQuery dev 0, Event.malloc dev d.requiredSize true,
        Event.detailQuery dev d.requiredSize, Event.detailQuery dev d.requiredSize,
        Event.createFile dev true, Event.getDeviceNumber dev],
        CHK false e (b.line 117) "IOCTL_STORAGE_GET_DEVICE_NUMBER" (some dev))
  | Win32.ok DeviceNumber =>
      ([Event.detailQuery dev 0, Event.malloc dev d.requiredSize true,
        Event.detailQuery dev d.requiredSize, Event.detailQuery dev d.requiredSize,
        Event.createFile dev true, Event.getDeviceNumber dev, Event.closeHandle dev]
        ++ report d.DevicePath DeviceNumber, none)

/-- The `while` of `main` and the `CHK` after it in the copy without `GetSerial`
(lines 68-135). -/
def deviceLoop (b : Build) (enumLastError : Nat) :
    Nat → List Device → List Event × Option Jump
  | _, [] =>
      ([], CHK (ERROR_NO_MORE_ITEMS == enumLastError) enumLastError (b.line 134)
        "SetupDiEnumDeviceInterfaces" none)
  | dev, d :: ds =>
      match deviceBody b dev d with
      | (evs, some j) => (evs, some j)
      | (evs, none) =>
          (evs ++ (deviceLoop b enumLastError (dev + 1) ds).1,
            (deviceLoop b enumLastError (dev + 1) ds).2)

/-- The function `main` of the copy without `GetSerial` (lines 34-150). -/
def main (b : Build) (w : World) : Run :=
  match w.classDevs with
  | Win32.failed e =>
      let x := errorExit false (CHK false e (b.line 61) "SetupDiGetClassDevs" none)
      ⟨Event.getClassDevs false :: x.1, x.2⟩
  | Win32.ok _ =>
      let l := deviceLoop b w.enumLastError 0 w.devices
      let x := errorExit true l.2
      ⟨Event.getClassDevs true :: l.1 ++ x.1, x.2⟩

end WithoutSerial

/-! ## Live resources -/

/-- A handle or buffer the program holds. -/
inductive Resource where
  /-- The device information set of `SetupDiGetClassDevs`. -/
  | infoList
  /-- The detail record `malloc`ed for device `dev`. -/
  | detailData (dev : Nat)
  /-- The handle `CreateFile` returned for device `dev`. -/
  | handle (dev : Nat)
  /-- The buffer of `size` bytes `LocalAlloc`ed in `GetSerial(h)`. -/
  | localBuf (h : Nat) (size : Nat)
  deriving DecidableEq, Repr

/-- The resources live after an event, given those live before it. -/
def track (held : List Resource) : Event → List Resource
  | Event.getClassDevs true => held ++ [Resource.infoList]
  | Event.destroyInfoList => held.erase Resource.infoList
  | Event.malloc dev _ true => held ++ [Resource.detailData dev]
  | Event.createFile dev true => held ++ [Resource.handle dev]
  | Event.closeHandle h => held.erase (Resource.handle h)
  | Event.localAlloc h size true => held ++ [Resource.localBuf h size]
  | Event.localFree h size => held.erase (Resource.localBuf h size)
  | _ => held

/-- The resources live after a sequence of events, starting with none. -/
def liveAfter (evs : List Event) : List Resource :=
  evs.foldl track []

/-- How many times handle `h` is closed. -/
def closeCount (h : Nat) (evs : List Event) : Nat :=
  evs.count (Event.closeHandle h)

/-! ## Vocabulary of the statements -/

/-- The calls of lines 139-188 for the device at position `dev`, as they are issued when each
check passes. -/
def checkedCalls (dev : Nat) (d : Device) : List Event :=
  [Event.detailQuery dev 0, Event.malloc dev d.requiredSize true,
   Event.detailQuery dev d.requiredSize, Event.detailQuery dev d.requiredSize,
   Event.createFile dev true, Event.getDeviceNumber dev]

/-- The stanza of a device in the order the specification gives (section 4.5): device path,
physical drive path, serial number line (if any), blank line. -/
def specStanza (DevicePath : String) (DeviceNumber : Nat) (serialLine : String) : String :=
  DevicePath ++ "\n" ++ ("\\\\?\\PhysicalDrive" ++ toString DeviceNumber ++ "\n")
    ++ serialLine ++ "\n"

/-- The stanza of a device in the order `main` writes it: what `GetSerial` wrote (line 190),
device path, physical drive path, blank line (lines 195-197). -/
def codeStanza (DevicePath : String) (DeviceNumber : Nat) (serialLine : String) : String :=
  serialLine ++ (DevicePath ++ "\n") ++ ("\\\\?\\PhysicalDrive" ++ toString DeviceNumber ++ "\n")
    ++ "\n"

/-- Every call that `main` guards with `CHK` while it processes `d` passes. -/
def ChecksPass (d : Device) : Prop :=
  d.detailSizeLastError = ERROR_INSUFFICIENT_BUFFER ∧ d.malloc = Win32.ok ()
    ∧ d.detailFetch = Win32.ok () ∧ d.createFile = Win32.ok ()
    ∧ ∃ DeviceNumber, d.deviceNumber = Win32.ok DeviceNumber

/-- The drive number the system reports for `d` (0 when the query fails). -/
def driveNumber (d : Device) : Nat :=
  match d.deviceNumber with
  | Win32.ok DeviceNumber => DeviceNumber
  | Win32.failed _ => 0

/-- What `GetSerial` writes for the device `d` at position `dev`. -/
def serialText (b : Build) (fuel dev : Nat) (d : Device) : String :=
  match GetSerial b.sizeofSDD d.serial dev fuel with
  | some serial => stdoutOf serial.1
  | none => ""

/-- One stanza per device, in the order of the enumeration, from position `dev` on. -/
def stanzas (b : Build) (fuel : Nat) : Nat → List Device → String
  | _, [] => ""
  | dev, d :: ds =>
      codeStanza d.DevicePath (driveNumber d) (serialText b fuel dev d)
        ++ stanzas b fuel (dev + 1) ds

/-- How many times `CreateFile` returns a handle for device `dev`. -/
def openCount (dev : Nat) (evs : List Event) : Nat :=
  evs.count (Event.createFile dev true)

/-- Whether a jump to `Error_Exit` leaves the handle of device `dev` in `disk` (1) or
not (0). -/
def pending (j : Option Jump) (dev : Nat) : Nat :=
  match j with
  | some ⟨_, _, _, some h⟩ => if h = dev then 1 else 0
  | _ => 0

/-- The device an event concerns: the position of the device a call is issued for, or the
handle it is issued on; `none` for text and for the calls on the device information set. -/
def deviceOf : Event → Option Nat
  | Event.out _ => none
  | Event.getClassDevs _ => none
  | Event.destroyInfoList => none
  | Event.detailQuery dev _ => some dev
  | Event.malloc dev _ _ => some dev
  | Event.createFile dev _ => some dev
  | Event.getDeviceNumber h => some h
  | Event.localAlloc h _ _ => some h
  | Event.queryProperty h _ => some h
  | Event.localFree h _ => some h
  | Event.closeHandle h => some h

/-- One stanza without serial number line per device, in the order of the enumeration. -/
def plainStanzas : List Device → String
  | [] => ""
  | d :: ds => codeStanza d.DevicePath (driveNumber d) "" ++ plainStanzas ds

/-- The answers to the property queries of a handle keep within what the loop of `GetSerial`
is written for: no query fails with the code `ERROR_MORE_DATA`, and `Size` is a `DWORD`. -/
def SerialAnswersOk (os : Nat → Nat → Attempt) : Prop :=
  (∀ n size, os n size ≠ Attempt.ioFailed ERROR_MORE_DATA)
    ∧ ∀ n size psdd, os n size = Attempt.ioOk psdd → psdd.Size < 2 ^ 32

/-! ## Example systems -/

/-- A build with the Windows SDK value `sizeof(STORAGE_DEVICE_DESCRIPTOR) = 40`, `__LINE__`
being the line on which a `CHK` invocation starts. -/
def sdkBuild : Build := ⟨40, id⟩

/-- A descriptor of true size 60 whose serial number `ABC123` is stored at offset 50. -/
def descABC123 : Descriptor :=
  ⟨40, 60, 50, List.replicate 50 'x' ++ "ABC123".toList ++ [NUL]⟩

/-- A descriptor of true size 400 without a serial number. -/
def descNoSerial : Descriptor := ⟨40, 400, 0, []⟩

/-- A descriptor written by a driver with a header of 36 bytes only. -/
def descOldVersion : Descriptor := ⟨36, 500, 50, []⟩

/-- A device for which every checked call of `main` succeeds: path `p`, drive number `n`,
and `serial` as the answers to the property queries. -/
def goodDevice (p : String) (n : Nat) (serial : Nat → Nat → Attempt) : Device :=
  ⟨ERROR_INSUFFICIENT_BUFFER, 64, Win32.ok (), Win32.ok (), p, Win32.ok (), Win32.ok n, serial⟩

/-- One disk whose serial number is `ABC123`. -/
def worldOneSerial : World :=
  ⟨Win32.ok (), [goodDevice "\\\\?\\scsi#disk#0" 0 (fun _ _ => Attempt.ioOk descABC123)],
    ERROR_NO_MORE_ITEMS⟩

/-- One disk for which the zero-size detail call leaves the last-error value 0 (for
instance a system layer that reports success there). -/
def worldZeroLastError : World :=
  ⟨Win32.ok (),
    [⟨0, 64, Win32.ok (), Win32.ok (), "\\\\?\\scsi#disk#0", Win32.ok (), Win32.ok 0,
      fun _ _ => Attempt.ioOk descABC123⟩],
    ERROR_NO_MORE_ITEMS⟩

/-- Two disks; the property query of the first fails with code 5 (access denied), the
second has the serial number `ABC123`. -/
def worldSerialQueryFails : World :=
  ⟨Win32.ok (),
    [goodDevice "\\\\?\\scsi#disk#0" 0 (fun _ _ => Attempt.ioFailed 5),
     goodDevice "\\\\?\\scsi#disk#1" 1 (fun _ _ => Attempt.ioOk descABC123)],
    ERROR_NO_MORE_ITEMS⟩

/-- A disk with serial number `ABC123` and drive number 0. -/
def diskABC123 : Device :=
  goodDevice "\\\\?\\scsi#disk#0" 0 (fun _ _ => Attempt.ioOk descABC123)

/-- The events of processing `diskABC123` at position 0. -/
def diskABC123Events : List Event :=
  [Event.detailQuery 0 0, Event.malloc 0 64 true, Event.detailQuery 0 64,
   Event.detailQuery 0 64, Event.createFile 0 true, Event.getDeviceNumber 0,
   Event.localAlloc 0 296 true, Event.queryProperty 0 296,
   Event.out "SerialNumber = ABC123\n", Event.localFree 0 296, Event.closeHandle 0,
   Event.out "\\\\?\\scsi#disk#0\n", Event.out "\\\\?\\PhysicalDrive0\n", Event.out "\n"]

/-- A disk whose property query fails with code 5 (access denied); drive number 0. -/
def diskSerialQueryFails : Device :=
  goodDevice "\\\\?\\scsi#disk#0" 0 (fun _ _ => Attempt.ioFailed 5)

/-- A disk with serial number `ABC123` and drive number 1. -/
def diskSecond : Device :=
  goodDevice "\\\\?\\scsi#disk#1" 1 (fun _ _ => Attempt.ioOk descABC123)

/-- A disk on which `CreateFile` fails with code 5 (access denied). -/
def diskOpenFails : Device :=
  ⟨ERROR_INSUFFICIENT_BUFFER, 64, Win32.ok (), Win32.ok (), "\\\\?\\scsi#disk#1",
    Win32.failed 5, Win32.ok 1, fun _ _ => Attempt.ioOk descABC123⟩

/-- A disk without a serial number whose descriptor has the true size 400. -/
def diskNoSerial : Device :=
  goodDevice "\\\\?\\scsi#disk#2" 2 (fun _ _ => Attempt.ioOk descNoSerial)

/-- Three disks; `CreateFile` fails on the second. -/
def worldOpenFails : World :=
  ⟨Win32.ok (), [diskABC123] ++ diskOpenFails :: [diskNoSerial], ERROR_NO_MORE_ITEMS⟩

/-- Two disks for which every call succeeds. -/
def worldTwoDisks : World :=
  ⟨Win32.ok (),
    [goodDevice "\\\\?\\scsi#disk#0" 0 (fun _ _ => Attempt.ioOk descABC123),
     goodDevice "\\\\?\\scsi#disk#1" 1 (fun _ _ => Attempt.ioOk descABC123)],
    ERROR_NO_MORE_ITEMS⟩

/-- One disk whose driver fails every property query with `ERROR_MORE_DATA`. -/
def worldQueryMoreData : World :=
  ⟨Win32.ok (), [goodDevice "\\\\?\\scsi#disk#0" 0 (fun _ _ => Attempt.ioFailed ERROR_MORE_DATA)],
    ERROR_NO_MORE_ITEMS⟩

/-! ## Lemmas on GetSerial -/

theorem stdoutOf_append (xs ys : List Event) :
    stdoutOf (xs ++ ys) = stdoutOf xs ++ stdoutOf ys := by
  induction xs with
  | nil => simp [stdoutOf]
  | cons e es ih =>
    cases e <;> simp [stdoutOf, ih, String.append_assoc]

theorem queriesOf_append (xs ys : List Event) :
    queriesOf (xs ++ ys) = queriesOf xs ++ queriesOf ys := by
  induction xs with
  | nil => simp [queriesOf]
  | cons e es ih =>
    cases e <;> simp [queriesOf, ih]

/-- The loop unfolded once. -/
theorem GetSerialLoop_succ (sizeofSDD : Nat) (os : Nat → Nat → Attempt) (hFile fuel n size : Nat) :
    GetSerialLoop sizeofSDD os hFile (fuel + 1) n size =
      if (GetSerialBody sizeofSDD hFile size (os n size)).2.2 = ERROR_MORE_DATA then
        (GetSerialLoop sizeofSDD os hFile fuel (n + 1)
          (GetSerialBody sizeofSDD hFile size (os n size)).2.1).map
          (fun rest => ((GetSerialBody sizeofSDD hFile size (os n size)).1 ++ rest.1, rest.2))
      else
        some ((GetSerialBody sizeofSDD hFile size (os n size)).1,
          (GetSerialBody sizeofSDD hFile size (os n size)).2.2) := by
  rfl

/-- A C string followed by its terminator is read back. -/
theorem cString_terminated (s : String) (rest : List Char) (hs : NUL ∉ s.data) :
    cString (s.data ++ NUL :: rest) = s := by
  have h : ∀ cs : List Char, NUL ∉ cs →
      (cs ++ NUL :: rest).takeWhile (fun c => c != NUL) = cs := by
    intro cs
    induction cs with
    | nil => intro _; simp [List.takeWhile]
    | cons c cs ih =>
      intro hc
      have h1 : c ≠ NUL := fun h => hc (by simp [h])
      have h2 : NUL ∉ cs := fun h => hc (by simp [h])
      have h3 : (c != NUL) = true := by simpa using h1
      simp [List.takeWhile, h3, ih h2]
  unfold cString
  rw [h s.data hs]

/-- A loop whose every query fails with `ERROR_MORE_DATA` never ends. -/
theorem GetSerialLoop_failed_more_data_forever (sizeofSDD hFile : Nat) :
    ∀ fuel n size,
      GetSerialLoop sizeofSDD (fun _ _ => Attempt.ioFailed ERROR_MORE_DATA) hFile fuel n size
        = none := by
  intro fuel
  induction fuel with
  | zero => intro n size; rfl
  | succ fuel ih =>
    intro n size
    rw [GetSerialLoop_succ]
    simp [GetSerialBody, ih]

/-- A pass whose query succeeds with a valid `Version` and a `Size` above the buffer is
followed by a pass with a buffer of `Size` bytes. -/
theorem GetSerialLoop_grow (sizeofSDD : Nat) (os : Nat → Nat → Attempt)
    (hFile fuel n size : Nat) (psdd : Descriptor) (hq : os n size = Attempt.ioOk psdd)
    (hv : psdd.Version ≥ sizeofSDD) (hs : psdd.Size > size) :
    GetSerialLoop sizeofSDD os hFile (fuel + 1) n size =
      (GetSerialLoop sizeofSDD os hFile fuel (n + 1) psdd.Size).map
        (fun rest => ([Event.localAlloc hFile size true, Event.queryProperty hFile size,
          Event.localFree hFile size] ++ rest.1, rest.2)) := by
  rw [GetSerialLoop_succ, hq]
  simp [GetSerialBody, hv, hs]

/-- A pass whose query succeeds with a valid `Version`, a `Size` within the buffer and a
serial number offset ends the loop with the serial number line and `NOERROR`. -/
theorem GetSerialLoop_serial (sizeofSDD : Nat) (os : Nat → Nat → Attempt)
    (hFile fuel n size : Nat) (psdd : Descriptor) (hq : os n size = Attempt.ioOk psdd)
    (hv : psdd.Version ≥ sizeofSDD) (hs : psdd.Size ≤ size) (ho : psdd.SerialNumberOffset ≠ 0) :
    GetSerialLoop sizeofSDD os hFile (fuel + 1) n size =
      some ([Event.localAlloc hFile size true, Event.queryProperty hFile size,
          Event.out ("SerialNumber = "
            ++ cString (psdd.bytes.drop psdd.SerialNumberOffset) ++ "\n"),
          Event.localFree hFile size], NOERROR) := by
  have hs2 : ¬ size < psdd.Size := by omega
  rw [GetSerialLoop_succ, hq]
  simp [GetSerialBody, hv, hs2, ho, NOERROR, ERROR_MORE_DATA]

/-- A pass whose query succeeds with a valid `Version`, a `Size` within the buffer and no
serial number offset ends the loop with `ERROR_NO_DATA`. -/
theorem GetSerialLoop_no_serial (sizeofSDD : Nat) (os : Nat → Nat → Attempt)
    (hFile fuel n size : Nat) (psdd : Descriptor) (hq : os n size = Attempt.ioOk psdd)
    (hv : psdd.Version ≥ sizeofSDD) (hs : psdd.Size ≤ size) (ho : psdd.SerialNumberOffset = 0) :
    GetSerialLoop sizeofSDD os hFile (fuel + 1) n size =
      some ([Event.localAlloc hFile size true, Event.queryProperty hFile size,
          Event.localFree hFile size], ERROR_NO_DATA) := by
  have hs2 : ¬ size < psdd.Size := by omega
  rw [GetSerialLoop_succ, hq]
  simp [GetSerialBody, hv, hs2, ho, ERROR_NO_DATA, ERROR_MORE_DATA]

/-- A pass whose query succeeds with a valid `Version` and a `Size` within the buffer ends
the loop after that one query, with a code other than the retry code. -/
theorem GetSerialLoop_fits (sizeofSDD : Nat) (os : Nat → Nat → Attempt)
    (hFile fuel n size : Nat) (psdd : Descriptor) (hq : os n size = Attempt.ioOk psdd)
    (hv : psdd.Version ≥ sizeofSDD) (hs : psdd.Size ≤ size) :
    ∃ evs dwError, GetSerialLoop sizeofSDD os hFile (fuel + 1) n size = some (evs, dwError)
      ∧ queriesOf evs = [size] ∧ dwError ≠ ERROR_MORE_DATA := by
  by_cases ho : psdd.SerialNumberOffset = 0
  · exact ⟨_, _, GetSerialLoop_no_serial sizeofSDD os hFile fuel n size psdd hq hv hs ho,
      by simp [queriesOf], by decide⟩
  · exact ⟨_, _, GetSerialLoop_serial sizeofSDD os hFile fuel n size psdd hq hv hs ho,
      by simp [queriesOf], by decide⟩

/-- The new size and `dwError` of a pass do not depend on the handle. -/
theorem GetSerialBody_snd (sizeofSDD hFile size : Nat) (a : Attempt) :
    (GetSerialBody sizeofSDD hFile size a).2 = (GetSerialBody sizeofSDD 0 size a).2 := by
  cases a with
  | allocFailed => rfl
  | ioFailed e => rfl
  | ioOk psdd =>
    simp only [GetSerialBody]
    split
    · split
      · rfl
      · split <;> rfl
    · rfl

/-- A pass that ends with `dwError == ERROR_MORE_DATA` issued one query and wrote nothing. -/
theorem GetSerialBody_retry (sizeofSDD hFile size : Nat) (a : Attempt)
    (h : (GetSerialBody sizeofSDD hFile size a).2.2 = ERROR_MORE_DATA) :
    (GetSerialBody sizeofSDD hFile size a).1 =
      [Event.localAlloc hFile size true, Event.queryProperty hFile size,
        Event.localFree hFile size] := by
  cases a with
  | allocFailed => simp [GetSerialBody, ERROR_NO_SYSTEM_RESOURCES, ERROR_MORE_DATA] at h
  | ioFailed e => rfl
  | ioOk psdd =>
    by_cases hv : psdd.Version ≥ sizeofSDD
    · by_cases hs : psdd.Size > size
      · simp [GetSerialBody, hv, hs]
      · by_cases ho : psdd.SerialNumberOffset = 0
        · simp [GetSerialBody, hv, hs, ho, ERROR_NO_DATA, ERROR_MORE_DATA] at h
        · simp [GetSerialBody, hv, hs, ho, NOERROR, ERROR_MORE_DATA] at h
    · simp [GetSerialBody, hv]

/-- The passes that are followed by another pass: those whose query succeeds with a valid
`Version` and a `Size` above the buffer, and those whose query fails with `GetLastError()`
equal to `ERROR_MORE_DATA`. -/
theorem GetSerialBody_retry_iff (sizeofSDD hFile size : Nat) (a : Attempt) :
    (GetSerialBody sizeofSDD hFile size a).2.2 = ERROR_MORE_DATA ↔
      (∃ psdd, a = Attempt.ioOk psdd ∧ psdd.Version ≥ sizeofSDD ∧ psdd.Size > size)
        ∨ a = Attempt.ioFailed ERROR_MORE_DATA := by
  cases a with
  | allocFailed => simp [GetSerialBody, ERROR_NO_SYSTEM_RESOURCES, ERROR_MORE_DATA]
  | ioFailed e => simp [GetSerialBody]
  | ioOk psdd =>
    by_cases hv : psdd.Version ≥ sizeofSDD
    · by_cases hs : psdd.Size > size
      · simp [GetSerialBody, hv, hs]
      · by_cases ho : psdd.SerialNumberOffset = 0
        · simp [GetSerialBody, hv, hs, ho, ERROR_NO_DATA, ERROR_MORE_DATA]
        · simp [GetSerialBody, hv, hs, ho, NOERROR, ERROR_MORE_DATA]
    · simp [GetSerialBody, hv, ERROR_GEN_FAILURE, ERROR_MORE_DATA]

/-- When the `n`-th pass is entered with `size`, a call of `GetSerial` is `n` passes that
each issue one query and write nothing, followed by the loop from that pass on. -/
theorem GetSerial_reaches (sizeofSDD : Nat) (os : Nat → Nat → Attempt) (hFile : Nat) :
    ∀ (n size : Nat), passSize sizeofSDD os n = some size →
      ∃ pre, stdoutOf pre = "" ∧ (queriesOf pre).length = n ∧ ∀ k,
        GetSerial sizeofSDD os hFile (n + k) =
          (GetSerialLoop sizeofSDD os hFile k n size).map (fun r => (pre ++ r.1, r.2)) := by
  intro n
  induction n with
  | zero =>
    intro size h
    simp only [passSize, Option.some.injEq] at h
    subst h
    refine ⟨[], rfl, rfl, fun k => ?_⟩
    unfold GetSerial
    rw [Nat.zero_add]
    cases GetSerialLoop sizeofSDD os hFile k 0 (sizeofSDD + 0x100) <;> simp
  | succ n ih =>
    intro size h
    simp only [passSize] at h
    cases hp : passSize sizeofSDD os n with
    | none => simp [hp] at h
    | some size0 =>
      simp only [hp] at h
      split at h
      · rename_i hmore
        simp only [Option.some.injEq] at h
        obtain ⟨pre, p1, p2, p3⟩ := ih size0 hp
        have hsnd := GetSerialBody_snd sizeofSDD hFile size0 (os n size0)
        have hmore2 : (GetSerialBody sizeofSDD hFile size0 (os n size0)).2.2
            = ERROR_MORE_DATA := by rw [hsnd]; exact hmore
        have hsize : (GetSerialBody sizeofSDD hFile size0 (os n size0)).2.1 = size := by
          rw [hsnd]; exact h
        have hevs := GetSerialBody_retry sizeofSDD hFile size0 (os n size0) hmore2
        refine ⟨pre ++ [Event.localAlloc hFile size0 true, Event.queryProperty hFile size0,
          Event.localFree hFile size0], ?_, ?_, fun k => ?_⟩
        · rw [stdoutOf_append, p1]; rfl
        · rw [queriesOf_append, List.length_append, p2]; rfl
        · have := p3 (k + 1)
          rw [GetSerialLoop_succ, if_pos hmore2, hsize, hevs] at this
          rw [show n + 1 + k = n + (k + 1) by omega, this]
          cases GetSerialLoop sizeofSDD os hFile k (n + 1) size <;> simp [List.append_assoc]
      · simp at h

/-! ## Lemmas on main -/

/-- The text of the three lines of lines 195-197. -/
theorem stdoutOf_report (DevicePath : String) (DeviceNumber : Nat) :
    stdoutOf (report DevicePath DeviceNumber) =
      (DevicePath ++ "\n") ++ ("\\\\?\\PhysicalDrive" ++ toString DeviceNumber ++ "\n")
        ++ "\n" := by
  simp [report, stdoutOf, String.append_assoc]

/-- The calls before `GetSerial` write nothing. -/
theorem stdoutOf_checkedCalls (dev : Nat) (d : Device) : stdoutOf (checkedCalls dev d) = "" := by
  simp [checkedCalls, stdoutOf]

/-- When every check of the loop body passes, the body is: the checked calls, `GetSerial`,
`CloseHandle`, the three lines; the value `GetSerial` returns is dropped. -/
theorem deviceBody_checks_pass (b : Build) (fuel dev : Nat) (d : Device) (DeviceNumber : Nat)
    (h1 : d.detailSizeLastError = ERROR_INSUFFICIENT_BUFFER) (h2 : d.malloc = Win32.ok ())
    (h3 : d.detailFetch = Win32.ok ()) (h4 : d.createFile = Win32.ok ())
    (h5 : d.deviceNumber = Win32.ok DeviceNumber) :
    deviceBody b fuel dev d =
      (GetSerial b.sizeofSDD d.serial dev fuel).map (fun serial =>
        (checkedCalls dev d ++ serial.1 ++ [Event.closeHandle dev]
          ++ report d.DevicePath DeviceNumber, none)) := by
  unfold deviceBody
  simp only [h1, h2, h3, h4, h5, CHK, beq_self_eq_true, if_true]
  cases GetSerial b.sizeofSDD d.serial dev fuel <;> rfl

/-- The loop unfolded at a device. -/
theorem deviceLoop_cons (b : Build) (fuel enumLastError dev : Nat) (d : Device)
    (ds : List Device) :
    deviceLoop b fuel enumLastError dev (d :: ds) =
      match deviceBody b fuel dev d with
      | none => none
      | some (evs, some j) => some (evs, some j)
      | some (evs, none) =>
          (deviceLoop b fuel enumLastError (dev + 1) ds).map
            (fun rest => (evs ++ rest.1, rest.2)) := by
  rfl

/-- The loop over `pre ++ rest`, when the devices of `pre` are processed without a failed
check, is the events of `pre` followed by the loop over `rest`. -/
theorem deviceLoop_append (b : Build) (fuel enumLastError : Nat) (rest : List Device) :
    ∀ (pre : List Device) (dev : Nat) (evsPre : List Event),
      deviceLoop b fuel ERROR_NO_MORE_ITEMS dev pre = some (evsPre, none) →
      deviceLoop b fuel enumLastError dev (pre ++ rest) =
        (deviceLoop b fuel enumLastError (dev + pre.length) rest).map
          (fun r => (evsPre ++ r.1, r.2)) := by
  intro pre
  induction pre with
  | nil =>
    intro dev evsPre h
    simp [deviceLoop, CHK] at h
    subst h
    cases deviceLoop b fuel enumLastError dev rest <;> simp
  | cons d ds ih =>
    intro dev evsPre h
    rw [deviceLoop_cons] at h
    rw [List.cons_append, deviceLoop_cons]
    cases hb : deviceBody b fuel dev d with
    | none => simp [hb] at h
    | some x =>
      obtain ⟨evs, j⟩ := x
      cases j with
      | some j => simp [hb] at h
      | none =>
        simp only [hb] at h ⊢
        cases hl : deviceLoop b fuel ERROR_NO_MORE_ITEMS (dev + 1) ds with
        | none => simp [hl] at h
        | some y =>
          obtain ⟨evs2, j2⟩ := y
          simp only [hl, Option.map_some', Option.some.injEq, Prod.mk.injEq] at h
          obtain ⟨h1, h2⟩ := h
          subst h1 h2
          rw [ih (dev + 1) evs2 hl]
          have : dev + 1 + ds.length = dev + (ds.length + 1) := by omega
          simp only [List.length_cons, this]
          cases deviceLoop b fuel enumLastError (dev + (ds.length + 1)) rest <;>
            simp [List.append_assoc]

/-- What a completed `GetSerial` wrote is nothing or one serial number line. -/
theorem GetSerialLoop_stdout (sizeofSDD : Nat) (os : Nat → Nat → Attempt) (hFile : Nat) :
    ∀ (fuel n size : Nat) (evs : List Event) (dwError : Nat),
      GetSerialLoop sizeofSDD os hFile fuel n size = some (evs, dwError) →
      stdoutOf evs = "" ∨ ∃ s, stdoutOf evs = "SerialNumber = " ++ s ++ "\n" := by
  intro fuel
  induction fuel with
  | zero => intro n size evs dwError h; simp [GetSerialLoop] at h
  | succ fuel ih =>
    intro n size evs dwError h
    rw [GetSerialLoop_succ] at h
    cases ha : os n size with
    | allocFailed =>
      simp [ha, GetSerialBody, ERROR_NO_SYSTEM_RESOURCES, ERROR_MORE_DATA] at h
      left; rw [← h.1]; simp [stdoutOf]
    | ioFailed e =>
      simp only [ha, GetSerialBody] at h
      split at h
      · cases hl : GetSerialLoop sizeofSDD os hFile fuel (n + 1) size with
        | none => simp [hl] at h
        | some y =>
          simp only [hl, Option.map_some', Option.some.injEq, Prod.mk.injEq] at h
          rw [← h.1, stdoutOf_append]
          have := ih (n + 1) size y.1 y.2 hl
          simpa [stdoutOf] using this
      · simp only [Option.some.injEq, Prod.mk.injEq] at h
        left; rw [← h.1]; simp [stdoutOf]
    | ioOk psdd =>
      simp only [ha, GetSerialBody] at h
      by_cases hv : psdd.Version ≥ sizeofSDD
      · by_cases hs : psdd.Size > size
        · simp only [hv, hs, if_true] at h
          cases hl : GetSerialLoop sizeofSDD os hFile fuel (n + 1) psdd.Size with
          | none => simp [hl] at h
          | some y =>
            simp only [hl, Option.map_some', Option.some.injEq, Prod.mk.injEq] at h
            rw [← h.1, stdoutOf_append]
            have := ih (n + 1) psdd.Size y.1 y.2 hl
            simpa [stdoutOf] using this
        · by_cases ho : psdd.SerialNumberOffset = 0
          · simp [hv, hs, ho, ERROR_NO_DATA, ERROR_MORE_DATA] at h
            left; rw [← h.1]; simp [stdoutOf]
          · simp [hv, hs, ho, NOERROR, ERROR_MORE_DATA] at h
            right
            refine ⟨cString (psdd.bytes.drop psdd.SerialNumberOffset), ?_⟩
            rw [← h.1]; simp [stdoutOf]
      · simp [hv, ERROR_GEN_FAILURE, ERROR_MORE_DATA] at h
        left; rw [← h.1]; simp [stdoutOf]

/-- The part of C3 that holds: at `Error_Exit` with a nonzero `error`, exactly the diagnostic
line of the failed check is written and `error` is returned. -/
theorem errorExit_reports_nonzero (infoList : Bool) (j : Jump) (hj : j.error ≠ ERROR_SUCCESS) :
    stdoutOf (errorExit infoList (some j)).1 = diagnostic j
      ∧ (errorExit infoList (some j)).2 = j.error := by
  have hj2 : ¬ ERROR_SUCCESS = j.error := fun h => hj h.symm
  obtain ⟨e, l, a, dk⟩ := j
  cases dk <;> cases infoList <;> simp_all [errorExit, stdoutOf]

/-- At `Error_Exit` with `error` equal to 0 nothing is written and 0 is returned. -/
theorem errorExit_silent_on_zero (infoList : Bool) (j : Jump) (hj : j.error = ERROR_SUCCESS) :
    stdoutOf (errorExit infoList (some j)).1 = ""
      ∧ (errorExit infoList (some j)).2 = ERROR_SUCCESS := by
  obtain ⟨e, l, a, dk⟩ := j
  cases dk <;> cases infoList <;> simp_all [errorExit, stdoutOf]

/-- A completed `GetSerial` that returns a code other than `NOERROR` wrote nothing. -/
theorem GetSerialLoop_silent_on_error (sizeofSDD : Nat) (os : Nat → Nat → Attempt)
    (hFile : Nat) :
    ∀ (fuel n size : Nat) (evs : List Event) (dwError : Nat),
      GetSerialLoop sizeofSDD os hFile fuel n size = some (evs, dwError) →
      dwError ≠ NOERROR → stdoutOf evs = "" := by
  intro fuel
  induction fuel with
  | zero => intro n size evs dwError h; simp [GetSerialLoop] at h
  | succ fuel ih =>
    intro n size evs dwError h hne
    rw [GetSerialLoop_succ] at h
    have retry : ∀ size2, (GetSerialLoop sizeofSDD os hFile fuel (n + 1) size2).map
        (fun rest => ([Event.localAlloc hFile size true, Event.queryProperty hFile size,
          Event.localFree hFile size] ++ rest.1, rest.2)) = some (evs, dwError) →
        stdoutOf evs = "" := by
      intro size2 h
      cases hl : GetSerialLoop sizeofSDD os hFile fuel (n + 1) size2 with
      | none => simp [hl] at h
      | some y =>
        simp only [hl, Option.map_some', Option.some.injEq, Prod.mk.injEq] at h
        have := ih (n + 1) size2 y.1 y.2 hl (by rw [h.2]; exact hne)
        rw [← h.1, stdoutOf_append, this]
        rfl
    have stop : ∀ code, some ([Event.localAlloc hFile size true, Event.queryProperty hFile size,
          Event.localFree hFile size], code) = some (evs, dwError) → stdoutOf evs = "" := by
      intro code h
      simp only [Option.some.injEq, Prod.mk.injEq] at h
      rw [← h.1]
      rfl
    cases ha : os n size with
    | allocFailed =>
      simp [ha, GetSerialBody, ERROR_NO_SYSTEM_RESOURCES, ERROR_MORE_DATA] at h
      rw [← h.1]
      rfl
    | ioFailed e =>
      simp only [ha, GetSerialBody] at h
      split at h
      · exact retry size h
      · exact stop e h
    | ioOk psdd =>
      simp only [ha, GetSerialBody] at h
      by_cases hv : psdd.Version ≥ sizeofSDD
      · by_cases hs : psdd.Size > size
        · simp only [hv, hs, if_true] at h
          exact retry psdd.Size h
        · by_cases ho : psdd.SerialNumberOffset = 0
          · simp only [hv, hs, ho, if_true, if_false, ne_eq, not_true_eq_false] at h
            exact stop _ (by simpa [ERROR_NO_DATA, ERROR_MORE_DATA] using h)
          · simp [hv, hs, ho, NOERROR, ERROR_MORE_DATA] at h
            exact absurd h.2.symm hne
      · simp only [hv, if_false] at h
        exact stop _ (by simpa [ERROR_GEN_FAILURE, ERROR_MORE_DATA] using h)

/-! ## Termination of GetSerial and the report of main -/

/-- When no query fails with `ERROR_MORE_DATA` and `Size` is a `DWORD`, the loop of
`GetSerial` returns: every retry enlarges the buffer, which cannot exceed `2 ^ 32`. -/
theorem GetSerialLoop_returns (sizeofSDD : Nat) (os : Nat → Nat → Attempt) (hFile : Nat)
    (hos : SerialAnswersOk os) :
    ∀ k n size, 2 ^ 32 ≤ size + k →
      (GetSerialLoop sizeofSDD os hFile (k + 1) n size).isSome = true := by
  intro k
  induction k with
  | zero =>
    intro n size hk
    rw [GetSerialLoop_succ]
    cases ha : os n size with
    | allocFailed => simp [GetSerialBody, ERROR_NO_SYSTEM_RESOURCES, ERROR_MORE_DATA]
    | ioFailed e =>
      have he : e ≠ ERROR_MORE_DATA := fun h => hos.1 n size (by rw [ha, h])
      simp [GetSerialBody, he]
    | ioOk psdd =>
      have hlt := hos.2 n size psdd ha
      have hs : ¬ size < psdd.Size := by omega
      by_cases hv : psdd.Version ≥ sizeofSDD
      · by_cases ho : psdd.SerialNumberOffset = 0
        · simp [GetSerialBody, hv, hs, ho, ERROR_NO_DATA, ERROR_MORE_DATA]
        · simp [GetSerialBody, hv, hs, ho, NOERROR, ERROR_MORE_DATA]
      · simp [GetSerialBody, hv, ERROR_GEN_FAILURE, ERROR_MORE_DATA]
  | succ k ih =>
    intro n size hk
    rw [GetSerialLoop_succ]
    cases ha : os n size with
    | allocFailed => simp [GetSerialBody, ERROR_NO_SYSTEM_RESOURCES, ERROR_MORE_DATA]
    | ioFailed e =>
      have he : e ≠ ERROR_MORE_DATA := fun h => hos.1 n size (by rw [ha, h])
      simp [GetSerialBody, he]
    | ioOk psdd =>
      by_cases hv : psdd.Version ≥ sizeofSDD
      · by_cases hs : size < psdd.Size
        · have := ih (n + 1) psdd.Size (by omega)
          simp [GetSerialBody, hv, hs, this]
        · by_cases ho : psdd.SerialNumberOffset = 0
          · simp [GetSerialBody, hv, hs, ho, ERROR_NO_DATA, ERROR_MORE_DATA]
          · simp [GetSerialBody, hv, hs, ho, NOERROR, ERROR_MORE_DATA]
      · simp [GetSerialBody, hv, ERROR_GEN_FAILURE, ERROR_MORE_DATA]

/-- When the checks pass for every device and every `GetSerial` call returns, the loop of
`main` ends without a failed check and has written one stanza per device, in order. -/
theorem deviceLoop_reports_every_device (b : Build) (fuel : Nat) :
    ∀ (ds : List Device) (dev : Nat),
      (∀ d ∈ ds, ChecksPass d) →
      (∀ d ∈ ds, ∀ h, (GetSerial b.sizeofSDD d.serial h fuel).isSome = true) →
      ∃ evs, deviceLoop b fuel ERROR_NO_MORE_ITEMS dev ds = some (evs, none)
        ∧ stdoutOf evs = stanzas b fuel dev ds := by
  intro ds
  induction ds with
  | nil =>
    intro dev _ _
    exact ⟨[], by simp [deviceLoop, CHK], rfl⟩
  | cons d ds ih =>
    intro dev hchk hser
    obtain ⟨h1, h2, h3, h4, DeviceNumber, h5⟩ := hchk d (by simp)
    obtain ⟨evs, e1, e2⟩ := ih (dev + 1) (fun x hx => hchk x (by simp [hx]))
      (fun x hx => hser x (by simp [hx]))
    have hsome := hser d (by simp) dev
    cases hg : GetSerial b.sizeofSDD d.serial dev fuel with
    | none => simp [hg] at hsome
    | some serial =>
      refine ⟨checkedCalls dev d ++ serial.1 ++ [Event.closeHandle dev]
        ++ report d.DevicePath DeviceNumber ++ evs, ?_, ?_⟩
      · rw [deviceLoop_cons, deviceBody_checks_pass b fuel dev d DeviceNumber h1 h2 h3 h4 h5,
          hg, e1]
        rfl
      · have hA : stdoutOf (checkedCalls dev d ++ serial.1 ++ [Event.closeHandle dev]
            ++ report d.DevicePath DeviceNumber ++ evs)
            = stdoutOf serial.1 ++ stdoutOf (report d.DevicePath DeviceNumber)
              ++ stdoutOf evs := by
          have hc : stdoutOf [Event.closeHandle dev] = "" := rfl
          rw [stdoutOf_append, stdoutOf_append, stdoutOf_append, stdoutOf_append,
            stdoutOf_checkedCalls, hc, String.empty_append, String.append_empty]
        rw [hA, stdoutOf_report, e2]
        simp only [stanzas, codeStanza, serialText, driveNumber, hg, h5, String.append_assoc]

/-- Apart from the defect of C1, C8 holds: when `SetupDiGetClassDevs` succeeds, the checks
pass for each of the `N` devices, no property query fails with `ERROR_MORE_DATA` (and `Size`
is a `DWORD`) and the enumeration ends with `ERROR_NO_MORE_ITEMS`, then with enough fuel `main`
returns 0 and has written exactly the `N` stanzas, in the order of the enumeration; for
`N = 0` it has written nothing. -/
theorem main_reports_every_device (b : Build) (w : World) (fuel : Nat)
    (hfuel : 2 ^ 32 < fuel) (hc : w.classDevs = Win32.ok ())
    (hend : w.enumLastError = ERROR_NO_MORE_ITEMS)
    (hchk : ∀ d ∈ w.devices, ChecksPass d)
    (hser : ∀ d ∈ w.devices, SerialAnswersOk d.serial) :
    ∃ r, main b w fuel = some r ∧ r.ret = ERROR_SUCCESS
      ∧ stdoutOf r.events = stanzas b fuel 0 w.devices
      ∧ (w.devices = [] → stdoutOf r.events = "") := by
  have hret : ∀ d ∈ w.devices, ∀ h, (GetSerial b.sizeofSDD d.serial h fuel).isSome = true := by
    intro d hd h
    obtain ⟨k, rfl⟩ : ∃ k, fuel = k + 1 := ⟨fuel - 1, by omega⟩
    exact GetSerialLoop_returns b.sizeofSDD d.serial h (hser d hd) k 0 _ (by omega)
  obtain ⟨evs, e1, e2⟩ := deviceLoop_reports_every_device b fuel w.devices 0 hchk hret
  refine ⟨⟨Event.getClassDevs true :: evs ++ [Event.destroyInfoList], ERROR_SUCCESS⟩,
    ?_, rfl, ?_, ?_⟩
  · unfold main
    simp [hc, hend, e1, errorExit]
  · have : stdoutOf (Event.getClassDevs true :: evs ++ [Event.destroyInfoList])
        = stdoutOf evs := by
      rw [List.cons_append]
      simp [stdoutOf, stdoutOf_append]
    rw [this, e2]
  · intro hnil
    have : stdoutOf (Event.getClassDevs true :: evs ++ [Event.destroyInfoList])
        = stdoutOf evs := by
      rw [List.cons_append]
      simp [stdoutOf, stdoutOf_append]
    rw [this, e2, hnil]
    rfl

/-- Two disks for which every call succeeds satisfy the hypotheses of
`main_reports_every_device`. -/
theorem main_reports_every_device_applies :
    ∃ r, main sdkBuild worldTwoDisks (2 ^ 32 + 1) = some r ∧ r.ret = ERROR_SUCCESS
      ∧ stdoutOf r.events = stanzas sdkBuild (2 ^ 32 + 1) 0 worldTwoDisks.devices
      ∧ (worldTwoDisks.devices = [] → stdoutOf r.events = "") := by
  refine main_reports_every_device sdkBuild worldTwoDisks (2 ^ 32 + 1) (by omega) rfl rfl ?_ ?_
  · intro d hd
    simp only [worldTwoDisks, List.mem_cons, List.mem_singleton, List.not_mem_nil,
      or_false] at hd
    rcases hd with rfl | rfl <;> exact ⟨rfl, rfl, rfl, rfl, _, rfl⟩
  · intro d hd
    simp only [worldTwoDisks, List.mem_cons, List.mem_singleton, List.not_mem_nil,
      or_false] at hd
    rcases hd with rfl | rfl <;>
      exact ⟨fun _ _ h => by simp [goodDevice] at h,
        fun _ _ psdd h => by
          simp only [goodDevice, Attempt.ioOk.injEq] at h
          rw [← h]; decide⟩

/-- In the copy of `main` without `GetSerial`, C8 holds as it stands: when
`SetupDiGetClassDevs` succeeds, the checks pass for each of the `N` devices and the
enumeration ends with `ERROR_NO_MORE_ITEMS`, `main` returns 0 and has written exactly the `N`
stanzas (device path, physical drive path, blank line), in the order of the enumeration. -/
theorem main_without_serial_reports_every_device (b : Build) (w : World)
    (hc : w.classDevs = Win32.ok ()) (hend : w.enumLastError = ERROR_NO_MORE_ITEMS)
    (hchk : ∀ d ∈ w.devices, ChecksPass d) :
    (WithoutSerial.main b w).ret = ERROR_SUCCESS
      ∧ stdoutOf (WithoutSerial.main b w).events = plainStanzas w.devices := by
  have loop : ∀ (ds : List Device) (dev : Nat), (∀ d ∈ ds, ChecksPass d) →
      (WithoutSerial.deviceLoop b ERROR_NO_MORE_ITEMS dev ds).2 = none
      ∧ stdoutOf (WithoutSerial.deviceLoop b ERROR_NO_MORE_ITEMS dev ds).1
          = plainStanzas ds := by
    intro ds
    induction ds with
    | nil => intro dev _; simp [WithoutSerial.deviceLoop, CHK, stdoutOf, plainStanzas]
    | cons d ds ih =>
      intro dev hd
      obtain ⟨h1, h2, h3, h4, DeviceNumber, h5⟩ := hd d (by simp)
      obtain ⟨e1, e2⟩ := ih (dev + 1) (fun x hx => hd x (by simp [hx]))
      have hb : WithoutSerial.deviceBody b dev d =
          (checkedCalls dev d ++ [Event.closeHandle dev] ++ report d.DevicePath DeviceNumber,
            none) := by
        simp [WithoutSerial.deviceBody, CHK, h1, h2, h3, h4, h5, checkedCalls]
      have hc2 : stdoutOf [Event.closeHandle dev] = "" := rfl
      simp only [WithoutSerial.deviceLoop, hb, e1, true_and]
      rw [stdoutOf_append, stdoutOf_append, stdoutOf_append, stdoutOf_checkedCalls, hc2,
        stdoutOf_report, e2]
      simp only [plainStanzas, codeStanza, driveNumber, h5, String.append_assoc,
        String.empty_append]
  obtain ⟨e1, e2⟩ := loop w.devices 0 hchk
  have hm : WithoutSerial.main b w =
      ⟨Event.getClassDevs true :: (WithoutSerial.deviceLoop b ERROR_NO_MORE_ITEMS 0 w.devices).1
        ++ [Event.destroyInfoList], ERROR_SUCCESS⟩ := by
    simp [WithoutSerial.main, hc, hend, e1, errorExit]
  rw [hm]
  refine ⟨rfl, ?_⟩
  rw [List.cons_append]
  simp [stdoutOf, stdoutOf_append, e2]

/-! ## Handles and LocalAlloc buffers -/

/-- A completed `GetSerial` opens and closes no handle and frees every buffer it allocated. -/
theorem GetSerialLoop_counts (sizeofSDD : Nat) (os : Nat → Nat → Attempt) (hFile : Nat) :
    ∀ (fuel n size : Nat) (evs : List Event) (dwError : Nat),
      GetSerialLoop sizeofSDD os hFile fuel n size = some (evs, dwError) →
      (∀ dev, openCount dev evs = 0) ∧ (∀ dev, closeCount dev evs = 0)
        ∧ ∀ h sz, evs.count (Event.localAlloc h sz true) = evs.count (Event.localFree h sz) := by
  intro fuel
  induction fuel with
  | zero => intro n size evs dwError h; simp [GetSerialLoop] at h
  | succ fuel ih =>
    intro n size evs dwError h
    rw [GetSerialLoop_succ] at h
    have retry : ∀ size2, (GetSerialLoop sizeofSDD os hFile fuel (n + 1) size2).map
        (fun rest => ([Event.localAlloc hFile size true, Event.queryProperty hFile size,
          Event.localFree hFile size] ++ rest.1, rest.2)) = some (evs, dwError) →
        (∀ dev, openCount dev evs = 0) ∧ (∀ dev, closeCount dev evs = 0)
        ∧ ∀ h sz, evs.count (Event.localAlloc h sz true)
            = evs.count (Event.localFree h sz) := by
      intro size2 h
      cases hl : GetSerialLoop sizeofSDD os hFile fuel (n + 1) size2 with
      | none => simp [hl] at h
      | some y =>
        simp only [hl, Option.map_some', Option.some.injEq, Prod.mk.injEq] at h
        obtain ⟨i1, i2, i3⟩ := ih (n + 1) size2 y.1 y.2 hl
        rw [← h.1]
        refine ⟨fun dev => ?_, fun dev => ?_, fun h' sz => ?_⟩
        · have := i1 dev
          simp only [openCount] at this ⊢
          simp [List.count_cons, this]
        · have := i2 dev
          simp only [closeCount] at this ⊢
          simp [List.count_cons, this]
        · simp [List.count_cons, i3 h' sz]
    have stop : ∀ code, some ([Event.localAlloc hFile size true, Event.queryProperty hFile size,
          Event.localFree hFile size], code) = some (evs, dwError) →
        (∀ dev, openCount dev evs = 0) ∧ (∀ dev, closeCount dev evs = 0)
        ∧ ∀ h sz, evs.count (Event.localAlloc h sz true)
            = evs.count (Event.localFree h sz) := by
      intro code h
      simp only [Option.some.injEq, Prod.mk.injEq] at h
      rw [← h.1]
      refine ⟨fun dev => ?_, fun dev => ?_, fun h' sz => ?_⟩ <;>
        simp [openCount, closeCount, List.count_cons]
    cases ha : os n size with
    | allocFailed =>
      simp [ha, GetSerialBody, ERROR_NO_SYSTEM_RESOURCES, ERROR_MORE_DATA] at h
      rw [← h.1]
      refine ⟨fun dev => ?_, fun dev => ?_, fun h' sz => ?_⟩ <;>
        simp [openCount, closeCount, List.count_cons]
    | ioFailed e =>
      simp only [ha, GetSerialBody] at h
      split at h
      · exact retry size h
      · exact stop e h
    | ioOk psdd =>
      simp only [ha, GetSerialBody] at h
      by_cases hv : psdd.Version ≥ sizeofSDD
      · by_cases hs : psdd.Size > size
        · simp only [hv, hs, if_true] at h
          exact retry psdd.Size h
        · by_cases ho : psdd.SerialNumberOffset = 0
          · simp only [hv, hs, ho, if_true, if_false, ne_eq, not_true_eq_false] at h
            exact stop _ (by simpa [ERROR_NO_DATA, ERROR_MORE_DATA] using h)
          · simp [hv, hs, ho, NOERROR, ERROR_MORE_DATA] at h
            rw [← h.1]
            refine ⟨fun dev => ?_, fun dev => ?_, fun h' sz => ?_⟩ <;>
              simp [openCount, closeCount, List.count_cons]
      · simp only [hv, if_false] at h
        exact stop _ (by simpa [ERROR_GEN_FAILURE, ERROR_MORE_DATA] using h)

/-- One pass of the loop of `main`: a handle is opened at most once, only for the device of
the pass, and it is closed in the pass or left in `disk` at the jump; every `LocalAlloc`
buffer is freed. -/
theorem deviceBody_counts (b : Build) (fuel p : Nat) (d : Device) (evs : List Event)
    (j : Option Jump) (hb : deviceBody b fuel p d = some (evs, j)) :
    (∀ dev, closeCount dev evs + pending j dev = openCount dev evs)
      ∧ (∀ dev, openCount dev evs ≤ 1) ∧ (∀ dev, dev ≠ p → openCount dev evs = 0)
      ∧ ∀ h sz, evs.count (Event.localAlloc h sz true) = evs.count (Event.localFree h sz) := by
  by_cases h1 : d.detailSizeLastError = ERROR_INSUFFICIENT_BUFFER
  · cases h2 : d.malloc with
    | failed e =>
      simp [deviceBody, CHK, h1, h2] at hb
      obtain ⟨rfl, rfl⟩ := hb
      simp [openCount, closeCount, pending, List.count_cons]
    | ok u2 =>
      cases h3 : d.detailFetch with
      | failed e =>
        simp [deviceBody, CHK, h1, h2, h3] at hb
        obtain ⟨rfl, rfl⟩ := hb
        simp [openCount, closeCount, pending, List.count_cons]
      | ok u3 =>
        cases h4 : d.createFile with
        | failed e =>
          simp [deviceBody, CHK, h1, h2, h3, h4] at hb
          obtain ⟨rfl, rfl⟩ := hb
          simp [openCount, closeCount, pending, List.count_cons]
        | ok u4 =>
          cases h5 : d.deviceNumber with
          | failed e =>
            simp [deviceBody, CHK, h1, h2, h3, h4, h5] at hb
            obtain ⟨rfl, rfl⟩ := hb
            refine ⟨fun dev => ?_, fun dev => ?_, fun dev hne => ?_, fun h sz => ?_⟩
            · by_cases hd : p = dev <;> simp [openCount, closeCount, pending, List.count_cons, hd]
            · by_cases hd : p = dev <;> simp [openCount, List.count_cons, hd]
            · have hd : ¬ p = dev := fun h => hne h.symm
              simp [openCount, List.count_cons, hd]
            · simp [List.count_cons]
          | ok DeviceNumber =>
            rw [deviceBody_checks_pass b fuel p d DeviceNumber h1 h2 h3 h4 h5] at hb
            cases hg : GetSerial b.sizeofSDD d.serial p fuel with
            | none => simp [hg] at hb
            | some serial =>
              simp only [hg, Option.map_some', Option.some.injEq, Prod.mk.injEq] at hb
              obtain ⟨rfl, rfl⟩ := hb
              obtain ⟨i1, i2, i3⟩ := GetSerialLoop_counts _ _ _ _ _ _ serial.1 serial.2 hg
              refine ⟨fun dev => ?_, fun dev => ?_, fun dev hne => ?_, fun h sz => ?_⟩
              · have a1 := i1 dev
                have a2 := i2 dev
                simp only [openCount, closeCount] at a1 a2 ⊢
                by_cases hd : p = dev <;>
                  simp [pending, checkedCalls, report, List.count_cons, List.count_append,
                    a1, a2, hd]
              · have a1 := i1 dev
                simp only [openCount] at a1 ⊢
                by_cases hd : p = dev <;>
                  simp [checkedCalls, report, List.count_cons, List.count_append, a1, hd]
              · have a1 := i1 dev
                have hd : ¬ p = dev := fun h => hne h.symm
                simp only [openCount] at a1 ⊢
                simp [checkedCalls, report, List.count_cons, List.count_append, a1, hd]
              · simp [checkedCalls, report, List.count_cons, List.count_append, i3 h sz]
  · have h1b : (ERROR_INSUFFICIENT_BUFFER == d.detailSizeLastError) = false := by
      simpa using fun h => h1 h.symm
    simp [deviceBody, CHK, h1b] at hb
    obtain ⟨rfl, rfl⟩ := hb
    simp [openCount, closeCount, pending, List.count_cons]

/-- The loop of `main` from position `p` on: every handle opened is closed in the loop or
left in `disk` at the jump, no handle is opened twice, none for a position before `p`, and
every `LocalAlloc` buffer is freed. -/
theorem deviceLoop_counts (b : Build) (fuel enumLastError : Nat) :
    ∀ (ds : List Device) (p : Nat) (evs : List Event) (j : Option Jump),
      deviceLoop b fuel enumLastError p ds = some (evs, j) →
      (∀ dev, closeCount dev evs + pending j dev = openCount dev evs)
        ∧ (∀ dev, openCount dev evs ≤ 1) ∧ (∀ dev, dev < p → openCount dev evs = 0)
        ∧ ∀ h sz, evs.count (Event.localAlloc h sz true)
            = evs.count (Event.localFree h sz) := by
  intro ds
  induction ds with
  | nil =>
    intro p evs j h
    simp only [deviceLoop, Option.some.injEq, Prod.mk.injEq] at h
    obtain ⟨rfl, rfl⟩ := h
    refine ⟨fun dev => ?_, fun dev => ?_, fun dev _ => ?_, fun h sz => ?_⟩
    · by_cases he : (ERROR_NO_MORE_ITEMS == enumLastError) = true <;>
        simp [CHK, he, pending, openCount, closeCount]
    · simp [openCount]
    · simp [openCount]
    · simp
  | cons d ds ih =>
    intro p evs j h
    rw [deviceLoop_cons] at h
    cases hb : deviceBody b fuel p d with
    | none => simp [hb] at h
    | some x =>
      obtain ⟨evs1, j1⟩ := x
      obtain ⟨b1, b2, b3, b4⟩ := deviceBody_counts b fuel p d evs1 j1 hb
      cases j1 with
      | some jj =>
        simp only [hb, Option.some.injEq, Prod.mk.injEq] at h
        obtain ⟨rfl, rfl⟩ := h
        exact ⟨b1, b2, fun dev hlt => b3 dev (by omega), b4⟩
      | none =>
        simp only [hb] at h
        cases hl : deviceLoop b fuel enumLastError (p + 1) ds with
        | none => simp [hl] at h
        | some y =>
          obtain ⟨evs2, j2⟩ := y
          simp only [hl, Option.map_some', Option.some.injEq, Prod.mk.injEq] at h
          obtain ⟨rfl, rfl⟩ := h
          obtain ⟨c1, c2, c3, c4⟩ := ih (p + 1) evs2 j2 hl
          refine ⟨fun dev => ?_, fun dev => ?_, fun dev hlt => ?_, fun h sz => ?_⟩
          · have a1 := b1 dev
            have a2 := c1 dev
            simp only [openCount, closeCount, pending] at a1 a2 ⊢
            simp only [List.count_append]
            omega
          · by_cases hd : dev = p
            · have a1 := b2 dev
              have a2 := c3 dev (by omega)
              simp only [openCount] at a1 a2 ⊢
              simp only [List.count_append]
              omega
            · have a1 := b3 dev hd
              have a2 := c2 dev
              simp only [openCount] at a1 a2 ⊢
              simp only [List.count_append]
              omega
          · have a1 := b3 dev (by omega)
            have a2 := c3 dev (by omega)
            simp only [openCount] at a1 a2 ⊢
            simp only [List.count_append]
            omega
          · simp only [List.count_append, b4 h sz, c4 h sz]

/-- The part of C5 that holds: in every run of `main` that returns, each handle `CreateFile`
returned is closed exactly once (no handle is returned twice, and `CloseHandle` is called as
often as `CreateFile` succeeded), and each buffer `LocalAlloc` returned is freed. -/
theorem handles_closed_exactly_once (b : Build) (w : World) (fuel : Nat) (r : Run)
    (hr : main b w fuel = some r) :
    (∀ dev, closeCount dev r.events = openCount dev r.events ∧ openCount dev r.events ≤ 1)
      ∧ ∀ h sz, r.events.count (Event.localAlloc h sz true)
          = r.events.count (Event.localFree h sz) := by
  unfold main at hr
  cases hc : w.classDevs with
  | failed e =>
    simp only [hc, Option.some.injEq] at hr
    rw [← hr]
    refine ⟨fun dev => ?_, fun h sz => ?_⟩
    · by_cases he : ERROR_SUCCESS = e <;>
        simp [errorExit, CHK, he, openCount, closeCount, List.count_cons]
    · by_cases he : ERROR_SUCCESS = e <;> simp [errorExit, CHK, he, List.count_cons]
  | ok u =>
    simp only [hc] at hr
    cases hl : deviceLoop b fuel w.enumLastError 0 w.devices with
    | none => simp [hl] at hr
    | some y =>
      obtain ⟨evs, j⟩ := y
      simp only [hl, Option.some.injEq] at hr
      obtain ⟨c1, c2, _, c4⟩ := deviceLoop_counts b fuel w.enumLastError w.devices 0 evs j hl
      rw [← hr]
      have exitClose : ∀ dev, closeCount dev (errorExit true j).1 = pending j dev := by
        intro dev
        cases j with
        | none => simp [errorExit, closeCount, pending]
        | some jj =>
          obtain ⟨e, l, a, dk⟩ := jj
          cases dk with
          | none =>
            by_cases he : ERROR_SUCCESS = e <;>
              simp [errorExit, closeCount, pending, he, List.count_cons]
          | some hh =>
            by_cases he : ERROR_SUCCESS = e <;> by_cases hd : hh = dev <;>
              simp [errorExit, closeCount, pending, he, hd, List.count_cons]
      have exitOther : (∀ dev, openCount dev (errorExit true j).1 = 0)
          ∧ ∀ h sz, (errorExit true j).1.count (Event.localAlloc h sz true) = 0
            ∧ (errorExit true j).1.count (Event.localFree h sz) = 0 := by
        cases j with
        | none => simp [errorExit, openCount]
        | some jj =>
          obtain ⟨e, l, a, dk⟩ := jj
          cases dk <;> by_cases he : ERROR_SUCCESS = e <;>
            simp [errorExit, openCount, he, List.count_cons]
      refine ⟨fun dev => ⟨?_, ?_⟩, fun h sz => ?_⟩
      · have a1 := c1 dev
        have a2 := exitClose dev
        have a3 := exitOther.1 dev
        simp only [openCount, closeCount] at a1 a2 a3 ⊢
        rw [List.cons_append]
        simp only [List.count_cons, List.count_append, a2, a3]
        simp
        omega
      · have a1 := c2 dev
        have a3 := exitOther.1 dev
        simp only [openCount] at a1 a3 ⊢
        rw [List.cons_append]
        simp only [List.count_cons, List.count_append, a3]
        simpa using a1
      · have a3 := exitOther.2 h sz
        rw [List.cons_append]
        simp only [List.count_cons, List.count_append, a3.1, a3.2, c4 h sz]
        simp

/-! ## The devices a run touches -/

/-- A pass whose query fails with a code other than `ERROR_MORE_DATA` ends the loop with
that code, after that one query and without output. -/
theorem GetSerialLoop_query_failed (sizeofSDD : Nat) (os : Nat → Nat → Attempt)
    (hFile fuel n size lastError : Nat) (hq : os n size = Attempt.ioFailed lastError)
    (he : lastError ≠ ERROR_MORE_DATA) :
    GetSerialLoop sizeofSDD os hFile (fuel + 1) n size =
      some ([Event.localAlloc hFile size true, Event.queryProperty hFile size,
        Event.localFree hFile size], lastError) := by
  rw [GetSerialLoop_succ, hq]
  simp [GetSerialBody, he]

/-- The events of one pass of `GetSerial(hFile)` concern the handle `hFile` only. -/
theorem GetSerialBody_deviceOf (sizeofSDD hFile size : Nat) (a : Attempt) :
    ∀ ev ∈ (GetSerialBody sizeofSDD hFile size a).1, ∀ dev, deviceOf ev = some dev →
      dev = hFile := by
  intro ev hev dev hdev
  cases a with
  | allocFailed =>
    simp only [GetSerialBody, List.mem_singleton] at hev
    subst hev
    simpa [deviceOf] using hdev.symm
  | ioFailed e =>
    simp only [GetSerialBody, List.mem_cons, List.mem_singleton, List.not_mem_nil,
      or_false] at hev
    rcases hev with rfl | rfl | rfl <;> simpa [deviceOf] using hdev.symm
  | ioOk psdd =>
    simp only [GetSerialBody] at hev
    split at hev
    · split at hev
      · simp only [List.mem_cons, List.mem_singleton, List.not_mem_nil, or_false] at hev
        rcases hev with rfl | rfl | rfl <;> simpa [deviceOf] using hdev.symm
      · split at hev
        · simp only [List.mem_cons, List.mem_singleton, List.not_mem_nil, or_false] at hev
          rcases hev with rfl | rfl | rfl | rfl
          · simpa [deviceOf] using hdev.symm
          · simpa [deviceOf] using hdev.symm
          · simp [deviceOf] at hdev
          · simpa [deviceOf] using hdev.symm
        · simp only [List.mem_cons, List.mem_singleton, List.not_mem_nil, or_false] at hev
          rcases hev with rfl | rfl | rfl <;> simpa [deviceOf] using hdev.symm
    · simp only [List.mem_cons, List.mem_singleton, List.not_mem_nil, or_false] at hev
      rcases hev with rfl | rfl | rfl <;> simpa [deviceOf] using hdev.symm

/-- The events of a completed `GetSerial(hFile)` concern the handle `hFile` only. -/
theorem GetSerialLoop_deviceOf (sizeofSDD : Nat) (os : Nat → Nat → Attempt) (hFile : Nat) :
    ∀ (fuel n size : Nat) (evs : List Event) (dwError : Nat),
      GetSerialLoop sizeofSDD os hFile fuel n size = some (evs, dwError) →
      ∀ ev ∈ evs, ∀ dev, deviceOf ev = some dev → dev = hFile := by
  intro fuel
  induction fuel with
  | zero => intro n size evs dwError h; simp [GetSerialLoop] at h
  | succ fuel ih =>
    intro n size evs dwError h ev hev dev hdev
    rw [GetSerialLoop_succ] at h
    split at h
    · cases hl : GetSerialLoop sizeofSDD os hFile fuel (n + 1)
          (GetSerialBody sizeofSDD hFile size (os n size)).2.1 with
      | none => simp [hl] at h
      | some y =>
        simp only [hl, Option.map_some', Option.some.injEq, Prod.mk.injEq] at h
        rw [← h.1, List.mem_append] at hev
        rcases hev with hev | hev
        · exact GetSerialBody_deviceOf sizeofSDD hFile size (os n size) ev hev dev hdev
        · exact ih (n + 1) _ y.1 y.2 hl ev hev dev hdev
    · simp only [Option.some.injEq, Prod.mk.injEq] at h
      rw [← h.1] at hev
      exact GetSerialBody_deviceOf sizeofSDD hFile size (os n size) ev hev dev hdev

/-- The events of one pass of the loop of `main` concern the device of that pass only, and
so does the handle left in `disk` at a jump. -/
theorem deviceBody_deviceOf (b : Build) (fuel p : Nat) (d : Device) (evs : List Event)
    (j : Option Jump) (hb : deviceBody b fuel p d = some (evs, j)) :
    (∀ ev ∈ evs, ∀ dev, deviceOf ev = some dev → dev = p)
      ∧ ∀ jj h, j = some jj → jj.disk = some h → h = p := by
  by_cases h1 : d.detailSizeLastError = ERROR_INSUFFICIENT_BUFFER
  · cases h2 : d.malloc with
    | failed e =>
      simp [deviceBody, CHK, h1, h2] at hb
      obtain ⟨rfl, rfl⟩ := hb
      refine ⟨by simp [deviceOf], fun jj h hj hd => ?_⟩
      cases hj
      simp at hd
    | ok u2 =>
      cases h3 : d.detailFetch with
      | failed e =>
        simp [deviceBody, CHK, h1, h2, h3] at hb
        obtain ⟨rfl, rfl⟩ := hb
        refine ⟨by simp [deviceOf], fun jj h hj hd => ?_⟩
        cases hj
        simp at hd
      | ok u3 =>
        cases h4 : d.createFile with
        | failed e =>
          simp [deviceBody, CHK, h1, h2, h3, h4] at hb
          obtain ⟨rfl, rfl⟩ := hb
          refine ⟨by simp [deviceOf], fun jj h hj hd => ?_⟩
          cases hj
          simp at hd
        | ok u4 =>
          cases h5 : d.deviceNumber with
          | failed e =>
            simp [deviceBody, CHK, h1, h2, h3, h4, h5] at hb
            obtain ⟨rfl, rfl⟩ := hb
            refine ⟨by simp [deviceOf], fun jj h hj hd => ?_⟩
            cases hj
            simp at hd
            omega
          | ok DeviceNumber =>
            rw [deviceBody_checks_pass b fuel p d DeviceNumber h1 h2 h3 h4 h5] at hb
            cases hg : GetSerial b.sizeofSDD d.serial p fuel with
            | none => simp [hg] at hb
            | some serial =>
              simp only [hg, Option.map_some', Option.some.injEq, Prod.mk.injEq] at hb
              obtain ⟨rfl, rfl⟩ := hb
              have hs := GetSerialLoop_deviceOf _ _ _ _ _ _ serial.1 serial.2 hg
              refine ⟨fun ev hev dev hdev => ?_, fun jj h hj => by simp at hj⟩
              simp only [List.mem_append, List.mem_singleton] at hev
              rcases hev with ((hev | hev) | hev) | hev
              · simp only [checkedCalls, List.mem_cons, List.mem_singleton,
                  List.not_mem_nil, or_false] at hev
                rcases hev with rfl | rfl | rfl | rfl | rfl | rfl <;>
                  simpa [deviceOf] using hdev.symm
              · exact hs ev hev dev hdev
              · subst hev
                simpa [deviceOf] using hdev.symm
              · simp only [report, List.mem_cons, List.mem_singleton, List.not_mem_nil,
                  or_false] at hev
                rcases hev with rfl | rfl | rfl <;> simp [deviceOf] at hdev
  · have h1b : (ERROR_INSUFFICIENT_BUFFER == d.detailSizeLastError) = false := by
      simpa using fun h => h1 h.symm
    simp [deviceBody, CHK, h1b] at hb
    obtain ⟨rfl, rfl⟩ := hb
    refine ⟨by simp [deviceOf], fun jj h hj hd => ?_⟩
    cases hj
    simp at hd

/-- The events of the loop of `main` from position `p` on over the devices `ds` concern the
positions from `p` up to `p + ds.length` only. -/
theorem deviceLoop_deviceOf (b : Build) (fuel enumLastError : Nat) :
    ∀ (ds : List Device) (p : Nat) (evs : List Event) (j : Option Jump),
      deviceLoop b fuel enumLastError p ds = some (evs, j) →
      ∀ ev ∈ evs, ∀ dev, deviceOf ev = some dev → p ≤ dev ∧ dev < p + ds.length := by
  intro ds
  induction ds with
  | nil =>
    intro p evs j h ev hev
    simp only [deviceLoop, Option.some.injEq, Prod.mk.injEq] at h
    rw [← h.1] at hev
    simp at hev
  | cons d ds ih =>
    intro p evs j h ev hev dev hdev
    rw [deviceLoop_cons] at h
    cases hb : deviceBody b fuel p d with
    | none => simp [hb] at h
    | some x =>
      obtain ⟨evs1, j1⟩ := x
      have hd := (deviceBody_deviceOf b fuel p d evs1 j1 hb).1
      cases j1 with
      | some jj =>
        simp only [hb, Option.some.injEq, Prod.mk.injEq] at h
        rw [← h.1] at hev
        have := hd ev hev dev hdev
        simp only [List.length_cons]
        omega
      | none =>
        simp only [hb] at h
        cases hl : deviceLoop b fuel enumLastError (p + 1) ds with
        | none => simp [hl] at h
        | some y =>
          simp only [hl, Option.map_some', Option.some.injEq, Prod.mk.injEq] at h
          rw [← h.1, List.mem_append] at hev
          simp only [List.length_cons]
          rcases hev with hev | hev
          · have := hd ev hev dev hdev
            omega
          · have := ih (p + 1) y.1 y.2 hl ev hev dev hdev
            omega

/-! ## The claims on GetSerial -/

/-- C1 (defect in the code): a `DeviceIoControl` that fails with `GetLastError()` equal to
`ERROR_MORE_DATA` does not end the loop.  With a system whose first query fails with
`ERROR_MORE_DATA` and whose second fails with code 5, `GetSerial` issues two queries with the
same 296-byte buffer and returns 5, not `ERROR_MORE_DATA`; and when every query fails with
`ERROR_MORE_DATA`, no number of passes is enough for `GetSerial` to return. -/
theorem GetSerial_retries_failed_query_more_data :
    GetSerial 40
        (fun n _ => if n = 0 then Attempt.ioFailed ERROR_MORE_DATA else Attempt.ioFailed 5) 7 2
      = some ([Event.localAlloc 7 296 true, Event.queryProperty 7 296, Event.localFree 7 296,
               Event.localAlloc 7 296 true, Event.queryProperty 7 296, Event.localFree 7 296],
              5)
    ∧ ∀ fuel, GetSerial 40 (fun _ _ => Attempt.ioFailed ERROR_MORE_DATA) 7 fuel = none := by
  constructor
  · decide
  · intro fuel
    exact GetSerialLoop_failed_more_data_forever 40 7 fuel 0 (40 + 0x100)

/-- C6 (counterexample): the first query succeeds with `Version = 40` and `Size = 400`, above
the initial 296 bytes, and `LocalAlloc` returns `NULL` for the 400 bytes of the retry.  Every
query that is issued succeeds and reports the size 400, yet `GetSerial` issues one query
only, with the buffer of 296 bytes, and returns `ERROR_NO_SYSTEM_RESOURCES`. -/
theorem GetSerial_one_query_when_LocalAlloc_fails :
    (fun n (_ : Nat) => if n = 0 then Attempt.ioOk descNoSerial else Attempt.allocFailed) 0 296
      = Attempt.ioOk descNoSerial
    ∧ descNoSerial.Version ≥ 40 ∧ descNoSerial.Size = 400 ∧ 400 > 40 + 0x100
    ∧ GetSerial 40
        (fun n _ => if n = 0 then Attempt.ioOk descNoSerial else Attempt.allocFailed) 7 10
      = some ([Event.localAlloc 7 296 true, Event.queryProperty 7 296, Event.localFree 7 296,
               Event.localAlloc 7 400 false], ERROR_NO_SYSTEM_RESOURCES)
    ∧ queriesOf [Event.localAlloc 7 296 true, Event.queryProperty 7 296,
        Event.localFree 7 296, Event.localAlloc 7 400 false] = [296]
    ∧ [296] ≠ [40 + 0x100, 400] := by
  refine ⟨rfl, by decide, rfl, by decide, by decide, by decide, by decide⟩

/-- C6 (amended): when in every pass of the loop `LocalAlloc` returns a buffer and the query
succeeds with `Version >= sizeof(STORAGE_DEVICE_DESCRIPTOR)` and `Size = S`, then for
`S > sizeof(STORAGE_DEVICE_DESCRIPTOR) + 0x100` `GetSerial` returns after exactly two queries,
with buffers of `sizeof(STORAGE_DEVICE_DESCRIPTOR) + 0x100` and of `S` bytes, and for `S` at
most the initial size after exactly one query; two passes of fuel are always enough, and the
value returned is not the retry code. -/
theorem GetSerial_retries_once_for_true_size (sizeofSDD : Nat) (os : Nat → Nat → Attempt)
    (hFile S : Nat)
    (halloc : ∀ n size, os n size ≠ Attempt.allocFailed)
    (hquery : ∀ n size lastError, os n size ≠ Attempt.ioFailed lastError)
    (hdesc : ∀ n size psdd, os n size = Attempt.ioOk psdd →
      psdd.Version ≥ sizeofSDD ∧ psdd.Size = S) :
    (S > sizeofSDD + 0x100 → ∀ fuel, ∃ evs dwError,
        GetSerial sizeofSDD os hFile (fuel + 2) = some (evs, dwError)
        ∧ queriesOf evs = [sizeofSDD + 0x100, S] ∧ dwError ≠ ERROR_MORE_DATA)
    ∧ (S ≤ sizeofSDD + 0x100 → ∀ fuel, ∃ evs dwError,
        GetSerial sizeofSDD os hFile (fuel + 1) = some (evs, dwError)
        ∧ queriesOf evs = [sizeofSDD + 0x100] ∧ dwError ≠ ERROR_MORE_DATA) := by
  have hos : ∀ n size, ∃ psdd, os n size = Attempt.ioOk psdd ∧ psdd.Version ≥ sizeofSDD
      ∧ psdd.Size = S := by
    intro n size
    cases ha : os n size with
    | allocFailed => exact absurd ha (halloc n size)
    | ioFailed e => exact absurd ha (hquery n size e)
    | ioOk psdd => exact ⟨psdd, rfl, hdesc n size psdd ha⟩
  constructor
  · intro hS fuel
    obtain ⟨psdd, h1, h2, h3⟩ := hos 0 (sizeofSDD + 0x100)
    obtain ⟨psdd1, k1, k2, k3⟩ := hos 1 S
    obtain ⟨evs, dwError, e1, e2, e3⟩ :=
      GetSerialLoop_fits sizeofSDD os hFile fuel 1 S psdd1 k1 k2 (by omega)
    refine ⟨[Event.localAlloc hFile (sizeofSDD + 0x100) true,
      Event.queryProperty hFile (sizeofSDD + 0x100),
      Event.localFree hFile (sizeofSDD + 0x100)] ++ evs, dwError, ?_, ?_, e3⟩
    · unfold GetSerial
      rw [GetSerialLoop_grow sizeofSDD os hFile (fuel + 1) 0 _ psdd h1 h2 (by omega), h3, e1]
      rfl
    · simp [queriesOf_append, queriesOf, e2]
  · intro hS fuel
    obtain ⟨psdd, h1, h2, h3⟩ := hos 0 (sizeofSDD + 0x100)
    exact GetSerialLoop_fits sizeofSDD os hFile fuel 0 _ psdd h1 h2 (by omega)

/-- Witness for C6 (amended): a descriptor of true size 400 is fetched with the buffers 296
and 400, one of true size 60 with the buffer 296 alone. -/
theorem GetSerial_retries_once_for_true_size_witness :
    (∀ n size : Nat, (fun _ _ => Attempt.ioOk descNoSerial) n size ≠ Attempt.allocFailed)
    ∧ (∀ n size lastError : Nat,
        (fun _ _ => Attempt.ioOk descNoSerial) n size ≠ Attempt.ioFailed lastError)
    ∧ (∀ (n size : Nat) psdd, (fun _ _ => Attempt.ioOk descNoSerial) n size
        = Attempt.ioOk psdd → psdd.Version ≥ 40 ∧ psdd.Size = 400)
    ∧ 400 > 40 + 0x100
    ∧ GetSerial 40 (fun _ _ => Attempt.ioOk descNoSerial) 7 2
        = some ([Event.localAlloc 7 296 true, Event.queryProperty 7 296,
            Event.localFree 7 296, Event.localAlloc 7 400 true, Event.queryProperty 7 400,
            Event.localFree 7 400], ERROR_NO_DATA)
    ∧ (∃ evs dwError, GetSerial 40 (fun _ _ => Attempt.ioOk descNoSerial) 7 (0 + 2)
        = some (evs, dwError)
        ∧ queriesOf evs = [40 + 0x100, 400] ∧ dwError ≠ ERROR_MORE_DATA)
    ∧ 60 ≤ 40 + 0x100
    ∧ (∃ evs dwError, GetSerial 40 (fun _ _ => Attempt.ioOk descABC123) 7 (0 + 1)
        = some (evs, dwError)
        ∧ queriesOf evs = [40 + 0x100] ∧ dwError ≠ ERROR_MORE_DATA) :=
  ⟨fun _ _ h => Attempt.noConfusion h, fun _ _ _ h => Attempt.noConfusion h,
    fun _ _ _ h => by cases h; exact ⟨by decide, rfl⟩, by decide, by decide,
    (GetSerial_retries_once_for_true_size 40 (fun _ _ => Attempt.ioOk descNoSerial) 7 400
      (fun _ _ h => Attempt.noConfusion h) (fun _ _ _ h => Attempt.noConfusion h)
      (fun _ _ _ h => by cases h; exact ⟨by decide, rfl⟩)).1 (by decide) 0,
    by decide,
    (GetSerial_retries_once_for_true_size 40 (fun _ _ => Attempt.ioOk descABC123) 7 60
      (fun _ _ h => Attempt.noConfusion h) (fun _ _ _ h => Attempt.noConfusion h)
      (fun _ _ _ h => by cases h; exact ⟨by decide, rfl⟩)).2 (by decide) 0⟩

/-- C7: when some pass of `GetSerial` (the `n`-th, entered with a buffer of `size` bytes) has
a query that succeeds with `Version >= sizeof(STORAGE_DEVICE_DESCRIPTOR)`, `Size` at most the
buffer size and a nonzero `SerialNumberOffset` at which the string `s` and its terminator
are stored, then that pass writes the line `SerialNumber = s` and ends the loop, and the
whole call returns `NOERROR`, which is 0, after `n + 1` queries, having written exactly that
line. -/
theorem GetSerial_prints_serial_number (sizeofSDD : Nat) (os : Nat → Nat → Attempt)
    (hFile fuel n size : Nat) (psdd : Descriptor) (s : String) (rest : List Char)
    (hreach : passSize sizeofSDD os n = some size)
    (hq : os n size = Attempt.ioOk psdd) (hv : psdd.Version ≥ sizeofSDD)
    (hs : psdd.Size ≤ size) (ho : psdd.SerialNumberOffset ≠ 0)
    (hstr : psdd.bytes.drop psdd.SerialNumberOffset = s.data ++ NUL :: rest)
    (hnul : NUL ∉ s.data) :
    GetSerialLoop sizeofSDD os hFile (fuel + 1) n size =
      some ([Event.localAlloc hFile size true, Event.queryProperty hFile size,
        Event.out ("SerialNumber = " ++ s ++ "\n"), Event.localFree hFile size], NOERROR)
    ∧ (∃ evs, GetSerial sizeofSDD os hFile (n + (fuel + 1)) = some (evs, NOERROR)
        ∧ stdoutOf evs = "SerialNumber = " ++ s ++ "\n"
        ∧ (queriesOf evs).length = n + 1)
    ∧ NOERROR = 0 := by
  have hpass : GetSerialLoop sizeofSDD os hFile (fuel + 1) n size =
      some ([Event.localAlloc hFile size true, Event.queryProperty hFile size,
        Event.out ("SerialNumber = " ++ s ++ "\n"), Event.localFree hFile size], NOERROR) := by
    rw [GetSerialLoop_serial sizeofSDD os hFile fuel n size psdd hq hv hs ho, hstr,
      cString_terminated s rest hnul]
  obtain ⟨pre, p1, p2, p3⟩ := GetSerial_reaches sizeofSDD os hFile n size hreach
  refine ⟨hpass, ⟨pre ++ [Event.localAlloc hFile size true, Event.queryProperty hFile size,
        Event.out ("SerialNumber = " ++ s ++ "\n"), Event.localFree hFile size],
      ?_, ?_, ?_⟩, rfl⟩
  · rw [p3 (fuel + 1), hpass]
    rfl
  · rw [stdoutOf_append, p1]
    simp [stdoutOf]
  · rw [queriesOf_append, List.length_append, p2]
    rfl

/-- Witness for C7: the serial number `ABC123` gives the line `SerialNumber = ABC123`. -/
theorem GetSerial_prints_serial_number_witness :
    passSize 40 (fun _ _ => Attempt.ioOk descABC123) 0 = some 296
    ∧ (fun _ _ => Attempt.ioOk descABC123) 0 296 = Attempt.ioOk descABC123
    ∧ descABC123.Version ≥ 40 ∧ descABC123.Size ≤ 296 ∧ descABC123.SerialNumberOffset ≠ 0
    ∧ descABC123.bytes.drop descABC123.SerialNumberOffset = "ABC123".data ++ NUL :: []
    ∧ NUL ∉ "ABC123".data
    ∧ (GetSerialLoop 40 (fun _ _ => Attempt.ioOk descABC123) 7 (0 + 1) 0 296 =
        some ([Event.localAlloc 7 296 true, Event.queryProperty 7 296,
          Event.out ("SerialNumber = " ++ "ABC123" ++ "\n"), Event.localFree 7 296], NOERROR)
      ∧ (∃ evs, GetSerial 40 (fun _ _ => Attempt.ioOk descABC123) 7 (0 + (0 + 1))
            = some (evs, NOERROR)
          ∧ stdoutOf evs = "SerialNumber = " ++ "ABC123" ++ "\n"
          ∧ (queriesOf evs).length = 0 + 1)
      ∧ NOERROR = 0) :=
  ⟨rfl, rfl, by decide, by decide, by decide, by decide, by decide,
    GetSerial_prints_serial_number 40 (fun _ _ => Attempt.ioOk descABC123) 7 0 0 296
      descABC123 "ABC123" [] rfl rfl (by decide) (by decide) (by decide) (by decide)
      (by decide)⟩

/-- C10: when the first query succeeds with a `Version` smaller than
`sizeof(STORAGE_DEVICE_DESCRIPTOR)`, whatever `Size` and `SerialNumberOffset` are, `GetSerial`
returns `ERROR_GEN_FAILURE` after that one query and writes nothing. -/
theorem GetSerial_old_version_gen_failure (sizeofSDD : Nat) (os : Nat → Nat → Attempt)
    (hFile fuel : Nat) (psdd : Descriptor)
    (hq : os 0 (sizeofSDD + 0x100) = Attempt.ioOk psdd) (hv : psdd.Version < sizeofSDD) :
    GetSerial sizeofSDD os hFile (fuel + 1) =
      some ([Event.localAlloc hFile (sizeofSDD + 0x100) true,
        Event.queryProperty hFile (sizeofSDD + 0x100),
        Event.localFree hFile (sizeofSDD + 0x100)], ERROR_GEN_FAILURE) := by
  have hv2 : ¬ sizeofSDD ≤ psdd.Version := by omega
  unfold GetSerial
  rw [GetSerialLoop_succ, hq]
  simp [GetSerialBody, hv2, ERROR_GEN_FAILURE, ERROR_MORE_DATA]

/-- Witness for C10: a descriptor of version 36 that asks for 500 bytes is not retried. -/
theorem GetSerial_old_version_gen_failure_witness :
    (fun _ _ => Attempt.ioOk descOldVersion) 0 (40 + 0x100) = Attempt.ioOk descOldVersion
    ∧ descOldVersion.Version < 40
    ∧ GetSerial 40 (fun _ _ => Attempt.ioOk descOldVersion) 7 (0 + 1) =
      some ([Event.localAlloc 7 (40 + 0x100) true, Event.queryProperty 7 (40 + 0x100),
        Event.localFree 7 (40 + 0x100)], ERROR_GEN_FAILURE) :=
  ⟨rfl, by decide,
    GetSerial_old_version_gen_failure 40 (fun _ _ => Attempt.ioOk descOldVersion) 7 0
      descOldVersion rfl (by decide)⟩

/-! ## The claims on main -/

/-- C2 (counterexample): for one disk with serial number `ABC123` the line
`SerialNumber = ABC123` is the first line on standard output, before the device path; the
output is not the stanza in the order path, drive, serial number, blank line. -/
theorem serial_line_precedes_device_path :
    (main sdkBuild worldOneSerial 1).map (fun r => stdoutOf r.events)
      = some "SerialNumber = ABC123\n\\\\?\\scsi#disk#0\n\\\\?\\PhysicalDrive0\n\n"
    ∧ (main sdkBuild worldOneSerial 1).map (fun r => stdoutOf r.events)
      ≠ some (specStanza "\\\\?\\scsi#disk#0" 0 "SerialNumber = ABC123\n") := by
  constructor <;> decide

/-- C2 (amended): for a device whose checks pass and whose `GetSerial` call returns, the text
written while it is processed is, in this order: what `GetSerial` wrote (nothing, or one
line `SerialNumber = ...`), the device path line, the line of the physical drive path, a
blank line. -/
theorem device_text_order (b : Build) (fuel dev : Nat) (d : Device) (DeviceNumber : Nat)
    (sevs : List Event) (dwError : Nat)
    (h1 : d.detailSizeLastError = ERROR_INSUFFICIENT_BUFFER) (h2 : d.malloc = Win32.ok ())
    (h3 : d.detailFetch = Win32.ok ()) (h4 : d.createFile = Win32.ok ())
    (h5 : d.deviceNumber = Win32.ok DeviceNumber)
    (hs : GetSerial b.sizeofSDD d.serial dev fuel = some (sevs, dwError)) :
    deviceBody b fuel dev d =
        some (checkedCalls dev d ++ sevs ++ [Event.closeHandle dev]
          ++ report d.DevicePath DeviceNumber, none)
      ∧ stdoutOf (checkedCalls dev d ++ sevs ++ [Event.closeHandle dev]
          ++ report d.DevicePath DeviceNumber)
        = stdoutOf sevs ++ (d.DevicePath ++ "\n")
          ++ ("\\\\?\\PhysicalDrive" ++ toString DeviceNumber ++ "\n") ++ "\n"
      ∧ (stdoutOf sevs = "" ∨ ∃ s, stdoutOf sevs = "SerialNumber = " ++ s ++ "\n") := by
  refine ⟨?_, ?_, GetSerialLoop_stdout _ _ _ _ _ _ sevs dwError hs⟩
  · rw [deviceBody_checks_pass b fuel dev d DeviceNumber h1 h2 h3 h4 h5, hs]
    rfl
  · simp [stdoutOf_append, stdoutOf_report, stdoutOf_checkedCalls, stdoutOf,
      String.append_assoc]

/-- Witness for C2 (amended): the disk with serial number `ABC123`. -/
theorem device_text_order_witness :
    GetSerial sdkBuild.sizeofSDD (fun _ _ => Attempt.ioOk descABC123) 0 1
      = some ([Event.localAlloc 0 296 true, Event.queryProperty 0 296,
          Event.out "SerialNumber = ABC123\n", Event.localFree 0 296], NOERROR)
    ∧ stdoutOf (checkedCalls 0
          (goodDevice "\\\\?\\scsi#disk#0" 0 (fun _ _ => Attempt.ioOk descABC123))
        ++ [Event.localAlloc 0 296 true, Event.queryProperty 0 296,
          Event.out "SerialNumber = ABC123\n", Event.localFree 0 296]
        ++ [Event.closeHandle 0] ++ report "\\\\?\\scsi#disk#0" 0)
      = stdoutOf [Event.localAlloc 0 296 true, Event.queryProperty 0 296,
          Event.out "SerialNumber = ABC123\n", Event.localFree 0 296]
        ++ ("\\\\?\\scsi#disk#0" ++ "\n")
        ++ ("\\\\?\\PhysicalDrive" ++ toString 0 ++ "\n") ++ "\n" :=
  ⟨by decide,
   (device_text_order sdkBuild 1 0
    (goodDevice "\\\\?\\scsi#disk#0" 0 (fun _ _ => Attempt.ioOk descABC123)) 0
    [Event.localAlloc 0 296 true, Event.queryProperty 0 296,
      Event.out "SerialNumber = ABC123\n", Event.localFree 0 296] NOERROR
    rfl rfl rfl rfl rfl (by decide)).2.1⟩

/-- C3 (defect in the code): when `GetLastError()` is 0 after the zero-size
`SetupDiGetDeviceInterfaceDetail` call of the first device, the `CHK` at line 145 fails and
`main` leaves the loop, but it writes no diagnostic line and returns 0: the run is not
told apart from a normal completion. -/
theorem main_silent_on_zero_last_error (fuel : Nat) :
    main sdkBuild worldZeroLastError fuel
      = some ⟨[Event.getClassDevs true, Event.detailQuery 0 0, Event.destroyInfoList], 0⟩
    ∧ stdoutOf [Event.getClassDevs true, Event.detailQuery 0 0, Event.destroyInfoList] = "" := by
  constructor
  · rfl
  · decide

/-- C4 (counterexample): the property query of the first of two disks fails with code 5,
yet `main` writes the stanza of that disk, goes on to open the second disk and write its
stanza, and returns 0. -/
theorem failed_serial_query_does_not_abort :
    (main sdkBuild worldSerialQueryFails 1).map
        (fun r => (stdoutOf r.events, r.ret, decide (Event.createFile 1 true ∈ r.events)))
      = some ("\\\\?\\scsi#disk#0\n\\\\?\\PhysicalDrive0\n\n"
          ++ "SerialNumber = ABC123\n\\\\?\\scsi#disk#1\n\\\\?\\PhysicalDrive1\n\n", 0, true) := by
  decide

/-- C4 (amended): let the devices before position `K` be processed without a failed check.
(1) If for device `K` a check of `CHK` fails, the first one that fails in the order last-error
after the zero-size detail call other than `ERROR_INSUFFICIENT_BUFFER`, `malloc`, the detail
fetch, `CreateFile`, the drive number query, then the pass ends at that check with `error`
equal to `GetLastError()` there; device `K` writes no text; the run is the events of the
earlier devices, the calls of device `K` up to the failing one and the exit code of `main`
(lines 202-214), whatever devices follow; no event concerns a device after `K`; and `main`
returns that `error`.
(2) If the checks pass for device `K` and the query of some pass of its `GetSerial` call fails
with a code other than `ERROR_MORE_DATA`, then `GetSerial` returns that code without output,
and the run is not aborted: the pass goes on to `CloseHandle` and the three lines of the
device, the loop goes on with the devices after `K`, and the events and the value returned at
the end are those of the rest of the loop; the code of the failed query is dropped. -/
theorem failed_check_aborts_run (b : Build) (fuel enumLastError : Nat)
    (pre post : List Device) (d : Device) (evsPre : List Event)
    (hpre : deviceLoop b fuel ERROR_NO_MORE_ITEMS 0 pre = some (evsPre, none)) :
    ((d.detailSizeLastError ≠ ERROR_INSUFFICIENT_BUFFER
        ∨ (∃ e, d.malloc = Win32.failed e) ∨ (∃ e, d.detailFetch = Win32.failed e)
        ∨ (∃ e, d.createFile = Win32.failed e) ∨ (∃ e, d.deviceNumber = Win32.failed e)) →
      ∃ evsK j,
        ((d.detailSizeLastError ≠ ERROR_INSUFFICIENT_BUFFER
            ∧ evsK = [Event.detailQuery pre.length 0]
            ∧ j = ⟨d.detailSizeLastError, b.line 145, "SetupDiGetDeviceInterfaceDetail - 1",
                none⟩)
          ∨ (∃ e, d.detailSizeLastError = ERROR_INSUFFICIENT_BUFFER
            ∧ d.malloc = Win32.failed e
            ∧ evsK = [Event.detailQuery pre.length 0,
                Event.malloc pre.length d.requiredSize false]
            ∧ j = ⟨e, b.line 149, "malloc", none⟩)
          ∨ (∃ e, d.detailSizeLastError = ERROR_INSUFFICIENT_BUFFER
            ∧ d.malloc = Win32.ok () ∧ d.detailFetch = Win32.failed e
            ∧ evsK = [Event.detailQuery pre.length 0,
                Event.malloc pre.length d.requiredSize true,
                Event.detailQuery pre.length d.requiredSize,
                Event.detailQuery pre.length d.requiredSize]
            ∧ j = ⟨e, b.line 162, "SetupDiGetDeviceInterfaceDetail - 2", none⟩)
          ∨ (∃ e, d.detailSizeLastError = ERROR_INSUFFICIENT_BUFFER
            ∧ d.malloc = Win32.ok () ∧ d.detailFetch = Win32.ok ()
            ∧ d.createFile = Win32.failed e
            ∧ evsK = [Event.detailQuery pre.length 0,
                Event.malloc pre.length d.requiredSize true,
                Event.detailQuery pre.length d.requiredSize,
                Event.detailQuery pre.length d.requiredSize,
                Event.createFile pre.length false]
            ∧ j = ⟨e, b.line 177, "CreateFile", none⟩)
          ∨ (∃ e, d.detailSizeLastError = ERROR_INSUFFICIENT_BUFFER
            ∧ d.malloc = Win32.ok () ∧ d.detailFetch = Win32.ok ()
            ∧ d.createFile = Win32.ok () ∧ d.deviceNumber = Win32.failed e
            ∧ evsK = [Event.detailQuery pre.length 0,
                Event.malloc pre.length d.requiredSize true,
                Event.detailQuery pre.length d.requiredSize,
                Event.detailQuery pre.length d.requiredSize,
                Event.createFile pre.length true, Event.getDeviceNumber pre.length]
            ∧ j = ⟨e, b.line 180, "IOCTL_STORAGE_GET_DEVICE_NUMBER", some pre.length⟩))
        ∧ deviceBody b fuel pre.length d = some (evsK, some j)
        ∧ (∀ text, Event.out text ∉ evsK)
        ∧ main b ⟨Win32.ok (), pre ++ d :: post, enumLastError⟩ fuel
            = some ⟨Event.getClassDevs true :: evsPre ++ evsK ++ (errorExit true (some j)).1,
                j.error⟩
        ∧ ∀ ev ∈ Event.getClassDevs true :: evsPre ++ evsK ++ (errorExit true (some j)).1,
            ∀ dev, deviceOf ev = some dev → dev ≤ pre.length)
    ∧ (∀ DeviceNumber n size lastError,
        d.detailSizeLastError = ERROR_INSUFFICIENT_BUFFER → d.malloc = Win32.ok () →
        d.detailFetch = Win32.ok () → d.createFile = Win32.ok () →
        d.deviceNumber = Win32.ok DeviceNumber →
        passSize b.sizeofSDD d.serial n = some size →
        d.serial n size = Attempt.ioFailed lastError → lastError ≠ ERROR_MORE_DATA →
        n < fuel →
        ∃ sevs, GetSerial b.sizeofSDD d.serial pre.length fuel = some (sevs, lastError)
          ∧ stdoutOf sevs = "" ∧ (queriesOf sevs).length = n + 1
          ∧ deviceBody b fuel pre.length d
              = some (checkedCalls pre.length d ++ sevs ++ [Event.closeHandle pre.length]
                  ++ report d.DevicePath DeviceNumber, none)
          ∧ main b ⟨Win32.ok (), pre ++ d :: post, enumLastError⟩ fuel
              = (deviceLoop b fuel enumLastError (pre.length + 1) post).map (fun rest =>
                  (⟨Event.getClassDevs true :: evsPre
                      ++ (checkedCalls pre.length d ++ sevs ++ [Event.closeHandle pre.length]
                        ++ report d.DevicePath DeviceNumber)
                      ++ rest.1 ++ (errorExit true rest.2).1,
                    (errorExit true rest.2).2⟩ : Run))) := by
  have hloop : deviceLoop b fuel enumLastError 0 (pre ++ d :: post) =
      (deviceLoop b fuel enumLastError pre.length (d :: post)).map
        (fun r => (evsPre ++ r.1, r.2)) := by
    have := deviceLoop_append b fuel enumLastError (d :: post) pre 0 evsPre hpre
    rwa [Nat.zero_add] at this
  constructor
  · intro hfail
    have key : ∃ evsK j,
        ((d.detailSizeLastError ≠ ERROR_INSUFFICIENT_BUFFER
            ∧ evsK = [Event.detailQuery pre.length 0]
            ∧ j = ⟨d.detailSizeLastError, b.line 145, "SetupDiGetDeviceInterfaceDetail - 1",
                none⟩)
          ∨ (∃ e, d.detailSizeLastError = ERROR_INSUFFICIENT_BUFFER
            ∧ d.malloc = Win32.failed e
            ∧ evsK = [Event.detailQuery pre.length 0,
                Event.malloc pre.length d.requiredSize false]
            ∧ j = ⟨e, b.line 149, "malloc", none⟩)
          ∨ (∃ e, d.detailSizeLastError = ERROR_INSUFFICIENT_BUFFER
            ∧ d.malloc = Win32.ok () ∧ d.detailFetch = Win32.failed e
            ∧ evsK = [Event.detailQuery pre.length 0,
                Event.malloc pre.length d.requiredSize true,
                Event.detailQuery pre.length d.requiredSize,
                Event.detailQuery pre.length d.requiredSize]
            ∧ j = ⟨e, b.line 162, "SetupDiGetDeviceInterfaceDetail - 2", none⟩)
          ∨ (∃ e, d.detailSizeLastError = ERROR_INSUFFICIENT_BUFFER
            ∧ d.malloc = Win32.ok () ∧ d.detailFetch = Win32.ok ()
            ∧ d.createFile = Win32.failed e
            ∧ evsK = [Event.detailQuery pre.length 0,
                Event.malloc pre.length d.requiredSize true,
                Event.detailQuery pre.length d.requiredSize,
                Event.detailQuery pre.length d.requiredSize,
                Event.createFile pre.length false]
            ∧ j = ⟨e, b.line 177, "CreateFile", none⟩)
          ∨ (∃ e, d.detailSizeLastError = ERROR_INSUFFICIENT_BUFFER
            ∧ d.malloc = Win32.ok () ∧ d.detailFetch = Win32.ok ()
            ∧ d.createFile = Win32.ok () ∧ d.deviceNumber = Win32.failed e
            ∧ evsK = [Event.detailQuery pre.length 0,
                Event.malloc pre.length d.requiredSize true,
                Event.detailQuery pre.length d.requiredSize,
                Event.detailQuery pre.length d.requiredSize,
                Event.createFile pre.length true, Event.getDeviceNumber pre.length]
            ∧ j = ⟨e, b.line 180, "IOCTL_STORAGE_GET_DEVICE_NUMBER", some pre.length⟩))
        ∧ deviceBody b fuel pre.length d = some (evsK, some j)
        ∧ (∀ text, Event.out text ∉ evsK) := by
      by_cases h1 : d.detailSizeLastError = ERROR_INSUFFICIENT_BUFFER
      · cases h2 : d.malloc with
        | failed e =>
          exact ⟨_, _, Or.inr (Or.inl ⟨e, h1, rfl, rfl, rfl⟩),
            by simp [deviceBody, CHK, h1, h2], by simp⟩
        | ok u2 =>
          cases h3 : d.detailFetch with
          | failed e =>
            exact ⟨_, _, Or.inr (Or.inr (Or.inl ⟨e, h1, rfl, rfl, rfl, rfl⟩)),
              by simp [deviceBody, CHK, h1, h2, h3], by simp⟩
          | ok u3 =>
            cases h4 : d.createFile with
            | failed e =>
              exact ⟨_, _,
                Or.inr (Or.inr (Or.inr (Or.inl ⟨e, h1, rfl, rfl, rfl, rfl, rfl⟩))),
                by simp [deviceBody, CHK, h1, h2, h3, h4], by simp⟩
            | ok u4 =>
              cases h5 : d.deviceNumber with
              | failed e =>
                exact ⟨_, _,
                  Or.inr (Or.inr (Or.inr (Or.inr ⟨e, h1, rfl, rfl, rfl, rfl, rfl, rfl⟩))),
                  by simp [deviceBody, CHK, h1, h2, h3, h4, h5], by simp⟩
              | ok DeviceNumber => simp [h1, h2, h3, h4, h5] at hfail
      · have h1b : (ERROR_INSUFFICIENT_BUFFER == d.detailSizeLastError) = false := by
          simpa using fun h => h1 h.symm
        exact ⟨_, _, Or.inl ⟨h1, rfl, rfl⟩, by simp [deviceBody, CHK, h1b], by simp⟩
    obtain ⟨evsK, j, hcase, hb, hout⟩ := key
    have hmain : main b ⟨Win32.ok (), pre ++ d :: post, enumLastError⟩ fuel
        = some ⟨Event.getClassDevs true :: evsPre ++ evsK ++ (errorExit true (some j)).1,
            j.error⟩ := by
      unfold main
      simp only
      rw [hloop, deviceLoop_cons]
      simp [hb, List.append_assoc, errorExit]
    refine ⟨evsK, j, hcase, hb, hout, hmain, ?_⟩
    intro ev hev dev hdev
    have hK := deviceBody_deviceOf b fuel pre.length d evsK (some j) hb
    rw [List.cons_append, List.cons_append, List.mem_cons, List.mem_append,
      List.mem_append] at hev
    rcases hev with rfl | (hev | hev) | hev
    · simp [deviceOf] at hdev
    · have := deviceLoop_deviceOf b fuel ERROR_NO_MORE_ITEMS pre 0 evsPre none hpre ev hev
        dev hdev
      omega
    · exact le_of_eq (hK.1 ev hev dev hdev)
    · have hx : ∃ h, j.disk = some h ∧ ev = Event.closeHandle h := by
        obtain ⟨e, l, a, dk⟩ := j
        cases dk with
        | none =>
          by_cases he : ERROR_SUCCESS = e <;>
            simp [errorExit, he] at hev <;>
            (rcases hev with rfl | rfl <;> simp [deviceOf] at hdev)
        | some h =>
          by_cases he : ERROR_SUCCESS = e
          · simp [errorExit, he] at hev
            rcases hev with rfl | rfl
            · simp [deviceOf] at hdev
            · exact ⟨h, rfl, rfl⟩
          · simp [errorExit, he] at hev
            rcases hev with rfl | rfl | rfl
            · simp [deviceOf] at hdev
            · simp [deviceOf] at hdev
            · exact ⟨h, rfl, rfl⟩
      obtain ⟨h, hd1, rfl⟩ := hx
      have := hK.2 j h rfl hd1
      simp only [deviceOf, Option.some.injEq] at hdev
      omega
  · intro DeviceNumber n size lastError h1 h2 h3 h4 h5 hreach hq he hn
    obtain ⟨k, rfl⟩ : ∃ k, fuel = n + (k + 1) := ⟨fuel - n - 1, by omega⟩
    obtain ⟨p, p1, p2, p3⟩ :=
      GetSerial_reaches b.sizeofSDD d.serial pre.length n size hreach
    have hret : GetSerial b.sizeofSDD d.serial pre.length (n + (k + 1)) =
        some (p ++ [Event.localAlloc pre.length size true,
          Event.queryProperty pre.length size, Event.localFree pre.length size],
          lastError) := by
      rw [p3 (k + 1),
        GetSerialLoop_query_failed b.sizeofSDD d.serial pre.length k n size lastError hq he]
      rfl
    have hbody : deviceBody b (n + (k + 1)) pre.length d
        = some (checkedCalls pre.length d
            ++ (p ++ [Event.localAlloc pre.length size true,
              Event.queryProperty pre.length size, Event.localFree pre.length size])
            ++ [Event.closeHandle pre.length]
            ++ report d.DevicePath DeviceNumber, none) := by
      rw [deviceBody_checks_pass b (n + (k + 1)) pre.length d DeviceNumber h1 h2 h3 h4 h5,
        hret]
      rfl
    refine ⟨_, hret, ?_, ?_, hbody, ?_⟩
    · rw [stdoutOf_append, p1]
      rfl
    · rw [queriesOf_append, List.length_append, p2]
      rfl
    · unfold main
      simp only
      rw [hloop, deviceLoop_cons, hbody]
      cases deviceLoop b (n + (k + 1)) enumLastError (pre.length + 1) post with
      | none => rfl
      | some rest => simp [List.append_assoc]

/-- Witness for C4 (amended): (1) `CreateFile` fails with code 5 on the second of three
disks; the run ends with the stanza of the first disk and the diagnostic line, and returns 5.
(2) The property query of the first of two disks fails with code 5; the run goes on with the
second disk. -/
theorem failed_check_aborts_run_witness :
    deviceLoop sdkBuild 2 ERROR_NO_MORE_ITEMS 0 [diskABC123] = some (diskABC123Events, none)
    ∧ (∃ e, diskOpenFails.createFile = Win32.failed e)
    ∧ (main sdkBuild worldOpenFails 2).map (fun r => (stdoutOf r.events, r.ret))
        = some ("SerialNumber = ABC123\n\\\\?\\scsi#disk#0\n\\\\?\\PhysicalDrive0\n\n"
            ++ "CreateFile failed at 177 : Error Code - 5\n", 5)
    ∧ (∃ evsK j,
        evsK = [Event.detailQuery 1 0, Event.malloc 1 64 true, Event.detailQuery 1 64,
          Event.detailQuery 1 64, Event.createFile 1 false]
        ∧ j = ⟨5, 177, "CreateFile", none⟩
        ∧ main sdkBuild ⟨Win32.ok (), [diskABC123] ++ diskOpenFails :: [diskNoSerial],
              ERROR_NO_MORE_ITEMS⟩ 2
            = some ⟨Event.getClassDevs true :: diskABC123Events ++ evsK
                ++ (errorExit true (some j)).1, j.error⟩
        ∧ ∀ ev ∈ Event.getClassDevs true :: diskABC123Events ++ evsK
              ++ (errorExit true (some j)).1,
            ∀ dev, deviceOf ev = some dev → dev ≤ [diskABC123].length)
    ∧ deviceLoop sdkBuild 1 ERROR_NO_MORE_ITEMS 0 [] = some ([], none)
    ∧ (main sdkBuild ⟨Win32.ok (), [] ++ diskSerialQueryFails :: [diskSecond],
          ERROR_NO_MORE_ITEMS⟩ 1).map (fun r => (stdoutOf r.events, r.ret))
        = some ("\\\\?\\scsi#disk#0\n\\\\?\\PhysicalDrive0\n\n"
            ++ "SerialNumber = ABC123\n\\\\?\\scsi#disk#1\n\\\\?\\PhysicalDrive1\n\n", 0)
    ∧ passSize sdkBuild.sizeofSDD diskSerialQueryFails.serial 0 = some 296
    ∧ diskSerialQueryFails.serial 0 296 = Attempt.ioFailed 5 ∧ 5 ≠ ERROR_MORE_DATA
    ∧ ∃ sevs, GetSerial sdkBuild.sizeofSDD diskSerialQueryFails.serial 0 1 = some (sevs, 5)
      ∧ stdoutOf sevs = "" ∧ (queriesOf sevs).length = 0 + 1
      ∧ main sdkBuild ⟨Win32.ok (), [] ++ diskSerialQueryFails :: [diskSecond],
            ERROR_NO_MORE_ITEMS⟩ 1
          = (deviceLoop sdkBuild 1 ERROR_NO_MORE_ITEMS (0 + 1) [diskSecond]).map (fun rest =>
              (⟨Event.getClassDevs true :: []
                  ++ (checkedCalls 0 diskSerialQueryFails ++ sevs ++ [Event.closeHandle 0]
                    ++ report diskSerialQueryFails.DevicePath 0)
                  ++ rest.1 ++ (errorExit true rest.2).1,
                (errorExit true rest.2).2⟩ : Run)) :=
  ⟨by decide, ⟨5, rfl⟩, by decide,
    (fun T => by
      obtain ⟨evsK, j, hcase, _, _, hmain, hdev⟩ := T
      have hk : evsK = [Event.detailQuery 1 0, Event.malloc 1 64 true,
          Event.detailQuery 1 64, Event.detailQuery 1 64, Event.createFile 1 false]
          ∧ j = ⟨5, 177, "CreateFile", none⟩ := by
        rcases hcase with ⟨h, _⟩ | ⟨e, _, h, _⟩ | ⟨e, _, _, h, _⟩ | ⟨e, _, _, _, h, he, hj⟩
          | ⟨e, _, _, _, h, _⟩
        · exact absurd rfl h
        · exact Win32.noConfusion h
        · exact Win32.noConfusion h
        · cases h
          exact ⟨he, hj⟩
        · exact Win32.noConfusion h
      exact ⟨evsK, j, hk.1, hk.2, hmain, hdev⟩)
      ((failed_check_aborts_run sdkBuild 2 ERROR_NO_MORE_ITEMS [diskABC123] [diskNoSerial]
        diskOpenFails diskABC123Events (by decide)).1
        (Or.inr (Or.inr (Or.inr (Or.inl ⟨5, rfl⟩))))),
    by decide, by decide, by decide, rfl, by decide,
    (fun T => by
      obtain ⟨sevs, h1, h2, h3, _, h5⟩ := T
      exact ⟨sevs, h1, h2, h3, h5⟩)
      ((failed_check_aborts_run sdkBuild 1 ERROR_NO_MORE_ITEMS [] [diskSecond]
        diskSerialQueryFails [] (by decide)).2 0 0 296 5 rfl rfl rfl rfl rfl (by decide) rfl
        (by decide) (by decide))⟩

/-- C5 (defect in the code): the detail record `malloc`ed at line 148 is never released.
With two disks for which every call succeeds, the record of the first disk is live when the
second pass of the loop starts, and both records are live when `main` returns 0; when
`CreateFile` fails on the second disk, both records are live when `main` returns 5.  (Each of
the two handles is closed once, and no handle or `LocalAlloc` buffer is live at the end.) -/
theorem detail_record_outlives_its_pass :
    (deviceBody sdkBuild 1 0 diskABC123).map
        (fun x => (x.2, liveAfter (Event.getClassDevs true :: x.1)))
      = some (none, [Resource.infoList, Resource.detailData 0])
    ∧ (main sdkBuild worldTwoDisks 1).map (fun r => (r.ret, liveAfter r.events))
      = some (0, [Resource.detailData 0, Resource.detailData 1])
    ∧ (main sdkBuild worldOpenFails 1).map (fun r => (r.ret, liveAfter r.events))
      = some (5, [Resource.detailData 0, Resource.detailData 1])
    ∧ (main sdkBuild worldTwoDisks 1).map
        (fun r => (closeCount 0 r.events, closeCount 1 r.events)) = some (1, 1) := by
  refine ⟨?_, ?_, ?_, ?_⟩ <;> decide

/-- C8 (defect in the code, the one of C1): with one disk for which every detail, open and
drive number call succeeds but whose property query fails with `ERROR_MORE_DATA` each time,
`GetSerial` never returns, so that no number of passes is enough for `main` to write the
stanza of the disk and return. -/
theorem main_never_returns_when_query_keeps_failing_more_data (fuel : Nat) :
    main sdkBuild worldQueryMoreData fuel = none := by
  have h : deviceBody sdkBuild fuel 0
      (goodDevice "\\\\?\\scsi#disk#0" 0 (fun _ _ => Attempt.ioFailed ERROR_MORE_DATA)) = none := by
    rw [deviceBody_checks_pass sdkBuild fuel 0 _ 0 rfl rfl rfl rfl rfl]
    unfold GetSerial
    have := GetSerialLoop_failed_more_data_forever sdkBuild.sizeofSDD 0 fuel 0
      (sdkBuild.sizeofSDD + 0x100)
    simp [goodDevice, this]
  unfold main worldQueryMoreData
  simp only
  rw [deviceLoop_cons, h]

/-- C9: when some pass of the `GetSerial` call for a device (the `n`-th, entered with a
buffer of `size` bytes) has a query that succeeds with
`Version >= sizeof(STORAGE_DEVICE_DESCRIPTOR)`, `Size` at most the buffer size and
`SerialNumberOffset` zero, then `GetSerial` returns `ERROR_NO_DATA` after `n + 1` queries (no
retry after that pass) and has written nothing; and if the checks pass for the device, `main`
closes the handle, writes the device path and physical drive lines and the blank line, and
goes on with the next device: the events of the later devices and the jump that decides the
exit code are those of the rest of the loop. -/
theorem no_serial_number_is_not_a_failure (b : Build) (fuel dev enumLastError : Nat)
    (d : Device) (ds : List Device) (DeviceNumber n size : Nat) (psdd : Descriptor)
    (h1 : d.detailSizeLastError = ERROR_INSUFFICIENT_BUFFER) (h2 : d.malloc = Win32.ok ())
    (h3 : d.detailFetch = Win32.ok ()) (h4 : d.createFile = Win32.ok ())
    (h5 : d.deviceNumber = Win32.ok DeviceNumber)
    (hreach : passSize b.sizeofSDD d.serial n = some size)
    (hq : d.serial n size = Attempt.ioOk psdd) (hv : psdd.Version ≥ b.sizeofSDD)
    (hs : psdd.Size ≤ size) (ho : psdd.SerialNumberOffset = 0) :
    ∃ sevs, GetSerial b.sizeofSDD d.serial dev (n + (fuel + 1)) = some (sevs, ERROR_NO_DATA)
      ∧ stdoutOf sevs = "" ∧ (queriesOf sevs).length = n + 1
      ∧ deviceLoop b (n + (fuel + 1)) enumLastError dev (d :: ds) =
          (deviceLoop b (n + (fuel + 1)) enumLastError (dev + 1) ds).map (fun rest =>
            (checkedCalls dev d ++ sevs ++ [Event.closeHandle dev]
              ++ report d.DevicePath DeviceNumber ++ rest.1, rest.2)) := by
  obtain ⟨pre, p1, p2, p3⟩ := GetSerial_reaches b.sizeofSDD d.serial dev n size hreach
  have hret : GetSerial b.sizeofSDD d.serial dev (n + (fuel + 1)) =
      some (pre ++ [Event.localAlloc dev size true, Event.queryProperty dev size,
        Event.localFree dev size], ERROR_NO_DATA) := by
    rw [p3 (fuel + 1),
      GetSerialLoop_no_serial b.sizeofSDD d.serial dev fuel n size psdd hq hv hs ho]
    rfl
  refine ⟨_, hret, ?_, ?_, ?_⟩
  · rw [stdoutOf_append, p1]
    rfl
  · rw [queriesOf_append, List.length_append, p2]
    rfl
  · rw [deviceLoop_cons,
      deviceBody_checks_pass b (n + (fuel + 1)) dev d DeviceNumber h1 h2 h3 h4 h5, hret]
    rfl

/-- Witness for C9: a disk without serial number whose descriptor has the true size 400 (so
that the second pass, with a buffer of 400 bytes, is the one that finds no serial number),
followed by the disk with serial number `ABC123`. -/
theorem no_serial_number_is_not_a_failure_witness :
    passSize sdkBuild.sizeofSDD diskNoSerial.serial 1 = some 400
    ∧ diskNoSerial.serial 1 400 = Attempt.ioOk descNoSerial
    ∧ descNoSerial.Version ≥ sdkBuild.sizeofSDD ∧ descNoSerial.Size ≤ 400
    ∧ descNoSerial.SerialNumberOffset = 0
    ∧ ∃ sevs, GetSerial sdkBuild.sizeofSDD diskNoSerial.serial 0 (1 + (0 + 1))
          = some (sevs, ERROR_NO_DATA)
      ∧ stdoutOf sevs = "" ∧ (queriesOf sevs).length = 1 + 1
      ∧ deviceLoop sdkBuild (1 + (0 + 1)) ERROR_NO_MORE_ITEMS 0 (diskNoSerial :: [diskABC123]) =
          (deviceLoop sdkBuild (1 + (0 + 1)) ERROR_NO_MORE_ITEMS (0 + 1) [diskABC123]).map
            (fun rest =>
              (checkedCalls 0 diskNoSerial ++ sevs ++ [Event.closeHandle 0]
                ++ report diskNoSerial.DevicePath 2 ++ rest.1, rest.2)) :=
  ⟨by decide, rfl, by decide, by decide, rfl,
    no_serial_number_is_not_a_failure sdkBuild 0 0 ERROR_NO_MORE_ITEMS diskNoSerial
      [diskABC123] 2 1 400 descNoSerial rfl rfl rfl rfl rfl (by decide) rfl (by decide)
      (by decide) rfl⟩

end RetrieveDisks
